import Mathlib

/-!
Verification development for the spec-harvester adaptive PDF key/value
extraction engine (`src/scripts/extract_pdf_kv.py`, with the simplified
variant in `src/scripts/extract_pdf_any.py`).

Modelling conventions:
* Python strings are Lean `String`s (lists of characters); `len` is the
  character count.
* Python ints are `Int` (or `Nat` where the source guarantees
  non-negativity, e.g. list lengths).
* Python floats are modelled as exact rationals `ℚ`; the engine only
  compares ratios of small integers against small decimal constants, and
  the claims under study do not probe floating-point rounding.  Integer
  ratios are written `Rat.divInt a b` (the exact value of `a / b` over
  `ℚ`, kernel-computable).
* The `round(x, n)` calls in the source only affect reported diagnostic
  copies of values (never control flow); the model keeps the unrounded
  rational in those record fields.
* I/O-performing calls (opening a PDF, running a backend, running OCR)
  are modelled as oracle arguments of type `Except String α`: a Python
  exception with message `m` is `Except.error m`.
* Python dict-based records become structures with the same field names.
-/

set_option maxRecDepth 4000

/-- ASCII whitespace recognized by Python's `\s` on the inputs in play. -/
def isPySpace (c : Char) : Bool :=
  c == ' ' || c == '\t' || c == '\n' || c == '\r' || c == '\x0B' || c == '\x0C'

/-- Collapse every maximal whitespace run to a single `' '`
(the effect of `re.sub(r"\s+", " ", text)`). -/
def collapseWs : List Char → List Char
  | [] => []
  | [c] => if isPySpace c then [' '] else [c]
  | c :: d :: rest =>
    if isPySpace c then
      if isPySpace d then collapseWs (d :: rest)
      else ' ' :: collapseWs (d :: rest)
    else c :: collapseWs (d :: rest)

/-- Strip leading/trailing `' '` (after `collapseWs` every whitespace
character has become `' '`, so this is Python's `.strip()`). -/
def trimSpaces (l : List Char) : List Char :=
  ((l.dropWhile (fun c => c == ' ')).reverse.dropWhile (fun c => c == ' ')).reverse

/-- `normalize` from `extract_pdf_kv.py` / `extract_pdf_any.py`:
`re.sub(r"\s+", " ", text).strip()`. -/
def normalizeStr (s : String) : String := ⟨trimSpaces (collapseWs s.data)⟩

/-- Python `str.lower()` (ASCII; `Char.toLower` lowers exactly `A`–`Z`). -/
def strLower (s : String) : String := ⟨s.data.map Char.toLower⟩

/-- Python `str.splitlines()` restricted to `'\n'` separators — the engine
only ever splits text it assembled with `"\n".join(...)`, whose pieces
contain no other line terminator.  Note `"a\nb\n".splitlines() = ["a","b"]`
(no trailing empty piece), which this definition reproduces. -/
def splitlinesCh : List Char → List (List Char)
  | [] => []
  | c :: rest =>
    if c == '\n' then [] :: splitlinesCh rest
    else
      match splitlinesCh rest with
      | [] => [[c]]
      | l :: ls => (c :: l) :: ls

def splitlinesStr (s : String) : List String :=
  (splitlinesCh s.data).map (fun l => ⟨l⟩)

/-- `sep.join(pieces)`. -/
def joinSep (sep : String) : List String → String
  | [] => ""
  | [s] => s
  | s :: rest => s ++ sep ++ joinSep sep rest

/-- Split at the first occurrence of `sep` (Python `s.split(sep, 1)` when
`sep in s`); `none` when `sep` does not occur. -/
def splitFirstAux (sep : List Char) : List Char → Option (List Char × List Char)
  | [] => none
  | c :: rest =>
    if sep.isPrefixOf (c :: rest) then some ([], (c :: rest).drop sep.length)
    else
      match splitFirstAux sep rest with
      | none => none
      | some (l, r) => some (c :: l, r)

/-- Try the ordered separator list; used by `parse_line_pair`. -/
def parsePairWithSeps : List String → List Char → Option (String × String)
  | [], _ => none
  | sep :: rest, cs =>
    match splitFirstAux sep.data cs with
    | some (l, r) => some (normalizeStr ⟨l⟩, normalizeStr ⟨r⟩)
    | none => parsePairWithSeps rest cs

/-- `parse_line_pair` from `extract_pdf_kv.py`: normalize the line, then
split on the first matching separator among `":"`, `" - "`, `" = "`,
`"\t"` (in that priority order); `("","")` when empty or no separator. -/
def parseLinePair (line : String) : String × String :=
  let normalized := normalizeStr line
  if normalized = "" then ("", "")
  else
    match parsePairWithSeps [":", " - ", " = ", "\t"] normalized.data with
    | some kv => kv
    | none => ("", "")

/-- The regex class `[a-zA-Z0-9]`. -/
def isAsciiAlnum (c : Char) : Bool :=
  decide (97 ≤ c.toNat ∧ c.toNat ≤ 122) ||
  decide (65 ≤ c.toNat ∧ c.toNat ≤ 90) ||
  decide (48 ≤ c.toNat ∧ c.toNat ≤ 57)

/-- `re.search(r"[a-zA-Z0-9]", s)` succeeds. -/
def hasAlnum (s : String) : Bool := s.data.any isAsciiAlnum

/-- `pair_is_valid` from `extract_pdf_kv.py` (bounds 2–160 / ≤1200). -/
def pairIsValid (key value : String) : Bool :=
  if key = "" || value = "" then false
  else if key.length < 2 || 160 < key.length then false
  else if 1200 < value.length then false
  else if !hasAlnum key then false
  else if !hasAlnum value then false
  else true

/-- `pair_is_valid` from `extract_pdf_any.py` (bounds 2–120 / ≤800). -/
def anyPairIsValid (key value : String) : Bool :=
  if key = "" || value = "" then false
  else if key.length < 2 || 120 < key.length then false
  else if 800 < value.length then false
  else if !hasAlnum key then false
  else if !hasAlnum value then false
  else true

/-- The regex word class `\w` = `[A-Za-z0-9_]` (ASCII inputs). -/
def isWordChar (c : Char) : Bool := isAsciiAlnum c || c == '_'

def boundaryLeft : Option Char → Bool
  | none => true
  | some c => !isWordChar c

def boundaryAfter : List Char → Bool
  | [] => true
  | c :: _ => !isWordChar c

/-- Scan for an occurrence of the word `w` delimited by `\b` on both
sides; `prev` is the character just before the current position. -/
def hasWordAux (w : List Char) : Option Char → List Char → Bool
  | _, [] => false
  | prev, c :: rest =>
    (boundaryLeft prev && w.isPrefixOf (c :: rest) &&
      boundaryAfter ((c :: rest).drop w.length)) ||
    hasWordAux w (some c) rest

/-- `re.search(r"\b<w>\b", s)` succeeds. -/
def hasWord (w : String) (s : List Char) : Bool := hasWordAux w.data none s

/-- `re.search(r"\b(?:w1|w2|...)\b", s)` succeeds. -/
def hasAnyWord (ws : List String) (s : List Char) : Bool :=
  ws.any fun w => hasWord w s

/-- `infer_unit_hint` from `extract_pdf_kv.py`: fixed ordered
case-insensitive patterns over `f"{key} {value}".lower()`; the third
pattern is `\b(?:mm|cm|inch|inches|in)\b|\"` (a bare double quote needs
no word boundary). -/
def inferUnitHint (key value : String) : String :=
  let token := (key.data ++ ' ' :: value.data).map Char.toLower
  if hasAnyWord ["dpi", "cpi"] token then "dpi"
  else if hasAnyWord ["hz", "khz"] token then "hz"
  else if hasAnyWord ["mm", "cm", "inch", "inches", "in"] token
      || token.any (fun c => c == '\"') then "mm"
  else if hasAnyWord ["g", "gram", "grams", "kg", "lb", "lbs", "pound",
      "pounds", "oz"] token then "g"
  else if hasWord "mah" token then "mah"
  else if hasAnyWord ["hour", "hours", "hr", "hrs", "min", "mins",
      "minute", "minutes"] token then "h"
  else ""

/-- `normalize_backend` from `extract_pdf_kv.py`. -/
def normalizeBackend (value : String) : String :=
  let token := strLower (normalizeStr value)
  if token = "auto" || token = "pdfplumber" || token = "pymupdf" ||
      token = "camelot" || token = "tabula" || token = "legacy" then token
  else "auto"

/-- `normalize_ocr_backend` from `extract_pdf_kv.py`. -/
def normalizeOcrBackend (value : String) : String :=
  let token := strLower (normalizeStr value)
  if token = "auto" || token = "none" || token = "tesseract" ||
      token = "paddleocr" then token
  else "auto"

/-- `parse_bool_token` (string/None inputs; the `isinstance(value, bool)`
branch is irrelevant to the CLI entry point, which passes strings). -/
def parseBoolToken (value : Option String) (default : Bool) : Bool :=
  match value with
  | none => default
  | some v =>
    let token := strLower (normalizeStr v)
    if token = "1" || token = "true" || token = "yes" || token = "on" then true
    else if token = "0" || token = "false" || token = "no" || token = "off" then false
    else default

/-- Decimal digit character. -/
def digitChar (d : Nat) : Char := Char.ofNat (48 + d)

/-- Decimal rendering of a natural number (no padding). -/
def natDigits (n : Nat) : List Char :=
  if _h : n < 10 then [digitChar n]
  else natDigits (n / 10) ++ [digitChar (n % 10)]
decreasing_by exact Nat.div_lt_self (by omega) (by omega)

/-- Python's `f"{n:0<width>d}"`: zero-pad the decimal rendering to at
least `width` characters. -/
def padDigits (width n : Nat) : List Char :=
  List.replicate (width - (natDigits n).length) '0' ++ natDigits n

def natStr (n : Nat) : String := ⟨natDigits n⟩

/-- The four `row_id` formats of `build_pair_record`
(`f"pdf_{page:02d}.kv_{row:04d}"` etc.). -/
def rowIdFor (surfaceToken : String) (page row : Nat) : String :=
  if surfaceToken = "pdf_table" then
    ⟨"pdf_".data ++ padDigits 2 page ++ ".tr_".data ++ padDigits 4 row⟩
  else if surfaceToken = "scanned_pdf_ocr_table" then
    ⟨"sc_pdf_".data ++ padDigits 2 page ++ ".ocr_tr_".data ++ padDigits 4 row⟩
  else if surfaceToken = "scanned_pdf_ocr_kv" then
    ⟨"sc_pdf_".data ++ padDigits 2 page ++ ".ocr_kv_".data ++ padDigits 4 row⟩
  else
    ⟨"pdf_".data ++ padDigits 2 page ++ ".kv_".data ++ padDigits 4 row⟩

/-- The four `path` formats of `build_pair_record`. -/
def pathFor (surfaceToken : String) (page : Nat) (tableToken : String)
    (row : Nat) : String :=
  let tbl := if tableToken = "" then "t" ++ natStr page else tableToken
  if surfaceToken = "pdf_table" then
    "pdf.page[" ++ natStr page ++ "].table[" ++ tbl ++ "].row[" ++ natStr row ++ "]"
  else if surfaceToken = "scanned_pdf_ocr_table" then
    "scanned_pdf.page[" ++ natStr page ++ "].table[" ++ tbl ++ "].row[" ++ natStr row ++ "]"
  else if surfaceToken = "scanned_pdf_ocr_kv" then
    "scanned_pdf.page[" ++ natStr page ++ "].kv[" ++ natStr row ++ "]"
  else
    "pdf.page[" ++ natStr page ++ "].kv[" ++ natStr row ++ "]"

/-- A pdfplumber-style bounding box (never constructed by the CLI path;
`build_pair_record` just passes it through). -/
structure BBox where
  x0 : ℚ
  y0 : ℚ
  x1 : ℚ
  y1 : ℚ
deriving DecidableEq, Repr

/-- The canonical pair-record dict built by `build_pair_record`. -/
structure PairRecord where
  key : String
  value : String
  raw_key : String
  raw_value : String
  normalized_key : String
  normalized_value : String
  table_id : Option String
  row_id : String
  section_header : Option String
  column_header : Option String
  unit_hint : Option String
  surface : String
  path : String
  page : Nat
  bbox : Option BBox
  backend : String
  ocr_confidence : Option ℚ
  ocr_low_confidence : Bool
deriving DecidableEq, Repr

/-- The surface-token coercion of `build_pair_record` (lines 120-126):
keep a recognized table/kv token, coerce anything else to `pdf_kv`. -/
def surfaceTokenOf (surface : String) : String :=
  let requested_surface := strLower (normalizeStr surface)
  if requested_surface = "pdf_table" || requested_surface = "scanned_pdf_ocr_table" then
    requested_surface
  else if requested_surface = "pdf_kv" || requested_surface = "scanned_pdf_ocr_kv" then
    requested_surface
  else "pdf_kv"

/-- `build_pair_record` from `extract_pdf_kv.py` (arguments in source
order; the keyword-only defaults are passed explicitly at call sites). -/
def buildPairRecord (key value : String) (page_number : Int)
    (surface backend : String) (row_index : Int)
    (table_id section_header column_header : String) (bbox : Option BBox)
    (ocr_confidence : Option ℚ) (ocr_low_confidence : Bool) : PairRecord :=
  let normalized_key := normalizeStr key
  let normalized_value := normalizeStr value
  let surface_token := surfaceTokenOf surface
  let page := (max 1 (if page_number = 0 then 1 else page_number)).toNat
  let row := (max 1 (if row_index = 0 then 1 else row_index)).toNat
  let table_token := normalizeStr table_id
  let nbk := normalizeBackend backend
  let sec := normalizeStr section_header
  let col := normalizeStr column_header
  let hint := inferUnitHint normalized_key normalized_value
  { key := normalized_key
    value := normalized_value
    raw_key := key
    raw_value := value
    normalized_key := normalized_key
    normalized_value := normalized_value
    table_id := if table_token = "" then none else some table_token
    row_id := rowIdFor surface_token page row
    section_header := if sec = "" then none else some sec
    column_header := if col = "" then none else some col
    unit_hint := if hint = "" then none else some hint
    surface := surface_token
    path := pathFor surface_token page table_token row
    page := page
    bbox := bbox
    backend := if nbk ≠ "auto" then nbk else strLower (normalizeStr backend)
    ocr_confidence := ocr_confidence
    ocr_low_confidence := ocr_low_confidence }

/-- Loop body of `extract_pairs_from_text`: walk the lines, keep valid
pairs, increment the shared row cursor, and stop once `len(pairs)`
reaches `limit` (the break in the source fires after the append).
`count` is the number of pairs collected so far in this call. -/
def extractTextGo (limit page_number : Int) (surface backend : String)
    (ocr_confidence : Option ℚ) (ocr_low_confidence : Bool) :
    List String → Int → Nat → List PairRecord × Int
  | [], row_index, _ => ([], row_index)
  | line :: rest, row_index, count =>
    let kv := parseLinePair line
    if pairIsValid kv.1 kv.2 then
      let r := row_index + 1
      let rec0 := buildPairRecord kv.1 kv.2 page_number surface backend r
        "" "" "" none ocr_confidence ocr_low_confidence
      if limit ≤ ((count + 1 : Nat) : Int) then ([rec0], r)
      else
        let tl := extractTextGo limit page_number surface backend
          ocr_confidence ocr_low_confidence rest r (count + 1)
        (rec0 :: tl.1, tl.2)
    else
      extractTextGo limit page_number surface backend ocr_confidence
        ocr_low_confidence rest row_index count

/-- `extract_pairs_from_text` from `extract_pdf_kv.py`; returns the pair
list and the final row cursor. -/
def extractPairsFromText (text : String) (limit page_number : Int)
    (backend : String) (start_index : Int) (surface : String)
    (ocr_confidence : Option ℚ) (ocr_low_confidence : Bool) :
    List PairRecord × Int :=
  extractTextGo limit page_number surface backend ocr_confidence
    ocr_low_confidence (splitlinesStr text) (max 0 start_index) 0

/-- One table cell: pdfplumber may yield `None`, which `cell or ""`
turns into the empty string before normalization. -/
abbrev TableCell := Option String

abbrev TableGrid := List (List TableCell)

/-- Loop body of `extract_pairs_from_table`: drop empty cells, skip rows
with fewer than two non-empty cells, join the tail with `" | "`. -/
def extractTableGo (limit page_number : Int) (surface backend table_id : String)
    (ocr_confidence : Option ℚ) (ocr_low_confidence : Bool) :
    TableGrid → Int → Nat → List PairRecord × Int
  | [], row_index, _ => ([], row_index)
  | row :: rest, row_index, count =>
    let cells := (row.map (fun c => normalizeStr (c.getD ""))).filter (fun c => c ≠ "")
    match cells with
    | c0 :: c1 :: crest =>
      let key := c0
      let value := joinSep " | " (c1 :: crest)
      if pairIsValid key value then
        let r := row_index + 1
        let rec0 := buildPairRecord key value page_number surface backend r
          table_id "" "" none ocr_confidence ocr_low_confidence
        if limit ≤ ((count + 1 : Nat) : Int) then ([rec0], r)
        else
          let tl := extractTableGo limit page_number surface backend table_id
            ocr_confidence ocr_low_confidence rest r (count + 1)
          (rec0 :: tl.1, tl.2)
      else
        extractTableGo limit page_number surface backend table_id
          ocr_confidence ocr_low_confidence rest row_index count
    | _ =>
      extractTableGo limit page_number surface backend table_id
        ocr_confidence ocr_low_confidence rest row_index count

/-- `extract_pairs_from_table` from `extract_pdf_kv.py`. -/
def extractPairsFromTable (table : TableGrid) (limit page_number : Int)
    (backend table_id : String) (start_index : Int) (surface : String)
    (ocr_confidence : Option ℚ) (ocr_low_confidence : Bool) :
    List PairRecord × Int :=
  extractTableGo limit page_number surface backend table_id ocr_confidence
    ocr_low_confidence table (max 0 start_index) 0

/-- The key half of a record's dedup signature:
`normalize(str(pair.get("normalized_key") or pair.get("key") or ""))`
(an empty `normalized_key` is falsy and falls back to `key`). -/
def dedupeSigKey (p : PairRecord) : String :=
  normalizeStr (if p.normalized_key ≠ "" then p.normalized_key else p.key)

def dedupeSigValue (p : PairRecord) : String :=
  normalizeStr (if p.normalized_value ≠ "" then p.normalized_value else p.value)

/-- The case-insensitive dedup signature `(key.lower(), value.lower())`. -/
def dedupeSig (p : PairRecord) : String × String :=
  (strLower (dedupeSigKey p), strLower (dedupeSigValue p))

/-- Loop of `dedupe_pairs`: skip empty keys/values, skip already-seen
signatures, stop once the output length reaches `limit` (checked after
the append, exactly as in the source). -/
def dedupeGo (limit : Int) :
    List PairRecord → List (String × String) → List PairRecord → List PairRecord
  | [], _, out => out.reverse
  | p :: ps, seen, out =>
    let k := dedupeSigKey p
    let v := dedupeSigValue p
    let signature := (strLower k, strLower v)
    if k = "" || v = "" then dedupeGo limit ps seen out
    else if seen.contains signature then dedupeGo limit ps seen out
    else
      let out' := p :: out
      if limit ≤ ((out'.length : Nat) : Int) then out'.reverse
      else dedupeGo limit ps (signature :: seen) out'

/-- `dedupe_pairs` from `extract_pdf_kv.py`. -/
def dedupePairs (pairs : List PairRecord) (limit : Int) : List PairRecord :=
  dedupeGo limit pairs [] []

/-- `surface in {"pdf_table", "scanned_pdf_ocr_table"}` after the
`normalize(...).lower()` applied by `split_pairs_by_surface`. -/
def surfaceIsTable (s : String) : Bool :=
  let t := strLower (normalizeStr s)
  t = "pdf_table" || t = "scanned_pdf_ocr_table"

/-- `split_pairs_by_surface`: one ordered pass appending each record to
the kv or table bucket, i.e. two order-preserving filters. -/
def splitPairsBySurface (pairs : List PairRecord) :
    List PairRecord × List PairRecord :=
  (pairs.filter (fun p => !surfaceIsTable p.surface),
   pairs.filter (fun p => surfaceIsTable p.surface))

/-- The availability map built by `detect_available_backends` (one flag
per importable backend module). -/
structure Avail where
  pdfplumber : Bool
  pymupdf : Bool
  camelot : Bool
  tabula : Bool
deriving DecidableEq, Repr

/-- `available.get(token)` with the dict's four keys (`bool(None)` is
`False` for anything else). -/
def availGet (a : Avail) (t : String) : Bool :=
  if t = "pdfplumber" then a.pdfplumber
  else if t = "pymupdf" then a.pymupdf
  else if t = "camelot" then a.camelot
  else if t = "tabula" then a.tabula
  else false

/-- The document fingerprint dict (`fingerprint_with_pdfplumber` /
`fingerprint_with_pymupdf` / the zero fingerprint in `main`). -/
structure Fingerprint where
  pages_scanned : Int
  tables_found : Int
  lines_scanned : Int
  text_chars : Int
  table_density : ℚ
  avg_chars_per_page : ℚ
deriving DecidableEq, Repr

def zeroFingerprint : Fingerprint :=
  { pages_scanned := 0, tables_found := 0, lines_scanned := 0,
    text_chars := 0, table_density := 0, avg_chars_per_page := 0 }

/-- The dict returned by `choose_backend` (the `table_density` field is
`round(td, 6)` in the source; only a reported copy, kept unrounded). -/
structure BackendChoice where
  requested : String
  selected : String
  fallback_used : Bool
  reason : String
  table_density : ℚ
  pages_scanned : Int
  tables_found : Int
deriving DecidableEq, Repr

/-- First-occurrence-preserving dedup of a token list (the `seen` set
loop used for the ranked list and the attempt order). -/
def dedupTokens : List String → List String → List String
  | [], _ => []
  | t :: rest, seen =>
    if seen.contains t then dedupTokens rest seen
    else t :: dedupTokens rest (t :: seen)

/-- The ranked preference list of `choose_backend`: `camelot` first when
`table_density ≥ 0.35`, then the fixed general-purpose order. -/
def rankedBackends (table_density : ℚ) : List String :=
  dedupTokens ((if Rat.divInt 35 100 ≤ table_density then ["camelot"] else []) ++
    ["pdfplumber", "pymupdf", "tabula"]) []

/-- The `first_available` closure: first ranked token whose availability
flag is set, else the `"legacy"` sentinel. -/
def firstAvailableIn (a : Avail) : List String → String
  | [] => "legacy"
  | t :: rest => if availGet a t then t else firstAvailableIn a rest

/-- `choose_backend` from `extract_pdf_kv.py`. -/
def chooseBackend (requested_backend : String) (available : Avail)
    (fingerprint : Fingerprint) : BackendChoice :=
  let requested := normalizeBackend requested_backend
  let pages_scanned := fingerprint.pages_scanned
  let tables_found := fingerprint.tables_found
  let table_density := fingerprint.table_density
  let ranked := rankedBackends table_density
  if requested ≠ "auto" then
    if requested = "legacy" then
      { requested := requested, selected := "legacy", fallback_used := false,
        reason := "requested_legacy", table_density := table_density,
        pages_scanned := pages_scanned, tables_found := tables_found }
    else if availGet available requested then
      { requested := requested, selected := requested, fallback_used := false,
        reason := "requested_" ++ requested, table_density := table_density,
        pages_scanned := pages_scanned, tables_found := tables_found }
    else
      let fallback := firstAvailableIn available ranked
      { requested := requested, selected := fallback, fallback_used := true,
        reason := "requested_unavailable_fallback_" ++ fallback,
        table_density := table_density, pages_scanned := pages_scanned,
        tables_found := tables_found }
  else
    let selected := firstAvailableIn available ranked
    let reason :=
      if selected = "camelot" && Rat.divInt 35 100 ≤ table_density then "auto_table_dense"
      else if selected = "pdfplumber" || selected = "pymupdf" || selected = "tabula" then
        "auto_" ++ selected
      else "auto_no_backend_available"
    { requested := requested, selected := selected, fallback_used := false,
      reason := reason, table_density := table_density,
      pages_scanned := pages_scanned, tables_found := tables_found }

/-- OCR backend availability (`detect_available_ocr_backends`). -/
structure OcrAvail where
  tesseract : Bool
  paddleocr : Bool
deriving DecidableEq, Repr

def ocrAvailGet (a : OcrAvail) (t : String) : Bool :=
  if t = "tesseract" then a.tesseract
  else if t = "paddleocr" then a.paddleocr
  else false

/-- The dict returned by `choose_ocr_backend`. -/
structure OcrChoice where
  requested : String
  selected : String
  fallback_used : Bool
  reason : String
deriving DecidableEq, Repr

def firstAvailableOcr (a : OcrAvail) : List String → String
  | [] => "none"
  | t :: rest => if ocrAvailGet a t then t else firstAvailableOcr a rest

/-- `choose_ocr_backend` from `extract_pdf_kv.py`. -/
def chooseOcrBackend (requested_backend : String) (available : OcrAvail) :
    OcrChoice :=
  let requested := normalizeOcrBackend requested_backend
  let ranked := ["tesseract", "paddleocr"]
  if requested = "none" then
    { requested := requested, selected := "none", fallback_used := false,
      reason := "requested_none" }
  else if requested = "tesseract" || requested = "paddleocr" then
    if ocrAvailGet available requested then
      { requested := requested, selected := requested, fallback_used := false,
        reason := "requested_" ++ requested }
    else
      let fallback := firstAvailableOcr available ranked
      { requested := requested, selected := fallback,
        fallback_used := fallback ≠ "none",
        reason := if fallback ≠ "none" then
            "requested_unavailable_fallback_" ++ fallback
          else "requested_unavailable_no_backend" }
  else
    let selected := firstAvailableOcr available ranked
    { requested := requested, selected := selected, fallback_used := false,
      reason := if selected ≠ "none" then "auto_" ++ selected
        else "auto_no_backend_available" }

/-- The dict returned by `should_route_to_scanned_ocr` (the reported
`chars_per_page` / `lines_per_page` are `round(x, 4)` in the source;
kept unrounded here — the detection flag uses the unrounded values in
the source as well). -/
structure ScanRoute where
  scanned_pdf_detected : Bool
  chars_per_page : ℚ
  lines_per_page : ℚ
  pairs_after_dedupe : Int
deriving DecidableEq, Repr

/-- `should_route_to_scanned_ocr` from `extract_pdf_kv.py`. -/
def shouldRouteToScannedOcr (fingerprint : Fingerprint)
    (pairs_after_dedupe : Int) (min_chars_per_page min_lines_per_page : Int) :
    ScanRoute :=
  let pages_scanned : Int := max 1 fingerprint.pages_scanned
  let text_chars : Int := max 0 fingerprint.text_chars
  let lines_scanned : Int := max 0 fingerprint.lines_scanned
  let chars_per_page : ℚ := Rat.divInt text_chars pages_scanned
  let lines_per_page : ℚ := Rat.divInt lines_scanned pages_scanned
  let near_empty_text :=
    chars_per_page ≤ ((max 0 min_chars_per_page : Int) : ℚ) ∨
    lines_per_page ≤ ((max 0 min_lines_per_page : Int) : ℚ)
  let low_pair_yield := pairs_after_dedupe ≤ max 6 (pages_scanned * 2)
  { scanned_pdf_detected := decide near_empty_text && decide low_pair_yield
    chars_per_page := chars_per_page
    lines_per_page := lines_per_page
    pairs_after_dedupe := pairs_after_dedupe }

/-- Per-page snippet dict appended to `pages` by the extractors. -/
structure PageSnippet where
  page_number : Int
  text : String
  char_count : Nat
deriving DecidableEq, Repr

/-- The `meta` dict of a primary-path extraction result. -/
structure ExtractionMeta where
  pages_scanned : Nat
  lines_scanned : Nat
  tables_found : Nat
  pairs_before_dedupe : Nat
  kv_pairs_before_dedupe : Nat
  table_pairs_before_dedupe : Nat
  backend : String
deriving DecidableEq, Repr

/-- A primary-path extraction result dict (`extract_with_pdfplumber` et
al.). -/
structure Extraction where
  pairs : List PairRecord
  kv_pairs : List PairRecord
  table_pairs : List PairRecord
  text_preview : String
  pages : List PageSnippet
  meta : ExtractionMeta
deriving DecidableEq, Repr

/-- A pdfplumber page handle: its 1-based `page_number` attribute, the
text `extract_text()` returns, and the outcome of `extract_tables()`
(`Except.error` models the exception swallowed by the source's
`try/except`, which replaces the tables with `[]`). -/
structure Page where
  page_number : Int
  rawText : String
  tablesResult : Except String (List TableGrid)
deriving Repr

/-- `f"p{page_number}_t{table_index + 1}"` — `table_id` assigned by
`extract_with_pdfplumber` (`page_number` rendered via Python `str`). -/
def intStr (i : Int) : String :=
  if i < 0 then "-" ++ natStr i.natAbs else natStr i.toNat

def tableIdFor (page_number : Int) (table_index : Nat) : String :=
  "p" ++ intStr page_number ++ "_t" ++ natStr (table_index + 1)

/-- The mutable locals of `extract_with_pdfplumber`'s page loop. -/
structure PState where
  snippets : List PageSnippet
  allPairs : List PairRecord
  kvPairs : List PairRecord
  tablePairs : List PairRecord
  previewChunks : List String
  tableCount : Nat
  linesScanned : Nat
  kvCursor : Int
  tableCursor : Int
deriving Repr

def initPState : PState :=
  { snippets := [], allPairs := [], kvPairs := [], tablePairs := [],
    previewChunks := [], tableCount := 0, linesScanned := 0,
    kvCursor := 0, tableCursor := 0 }

/-- One iteration of the table loop in `extract_with_pdfplumber`. -/
def tableStep (max_pairs page_number : Int) (table_index : Nat)
    (table : TableGrid) (st : PState) : PState :=
  let res := extractPairsFromTable table max_pairs page_number "pdfplumber"
    (tableIdFor page_number table_index) st.tableCursor "pdf_table" none false
  { st with tablePairs := st.tablePairs ++ res.1,
            allPairs := st.allPairs ++ res.1,
            tableCursor := res.2 }

/-- The table loop of `extract_with_pdfplumber`: the early-stop bound
`len(all_pairs) >= max_pairs * 3` is checked after each table. -/
def tablesLoop (max_pairs page_number : Int) :
    List TableGrid → Nat → PState → PState
  | [], _, st => st
  | t :: rest, table_index, st =>
    let st' := tableStep max_pairs page_number table_index t st
    if max_pairs * 3 ≤ ((st'.allPairs.length : Nat) : Int) then st'
    else tablesLoop max_pairs page_number rest (table_index + 1) st'

/-- The body of `extract_with_pdfplumber`'s page loop: normalize and
join the page text, record the snippet, harvest free-text pairs when the
page text is non-empty, then walk the page's tables. -/
def processPage (max_pairs : Int) (p : Page) (st : PState) : PState :=
  let normalizedLines := ((splitlinesStr p.rawText).map normalizeStr).filter
    (fun l => l ≠ "")
  let pageText := joinSep "\n" normalizedLines
  let page_number : Int := if p.page_number = 0 then 1 else p.page_number
  let snippet : PageSnippet :=
    { page_number := page_number, text := ⟨pageText.data.take 3000⟩,
      char_count := pageText.length }
  let st1 :=
    { st with snippets := st.snippets ++ [snippet],
              linesScanned := st.linesScanned + normalizedLines.length }
  let st2 :=
    if pageText ≠ "" then
      let res := extractPairsFromText pageText max_pairs page_number
        "pdfplumber" st1.kvCursor "pdf_kv" none false
      { st1 with kvPairs := st1.kvPairs ++ res.1,
                 allPairs := st1.allPairs ++ res.1,
                 previewChunks := st1.previewChunks ++ [pageText],
                 kvCursor := res.2 }
    else st1
  let tables := match p.tablesResult with
    | .ok ts => ts
    | .error _ => []
  let st3 := { st2 with tableCount := st2.tableCount + tables.length }
  tablesLoop max_pairs page_number tables 0 st3

/-- The page loop of `extract_with_pdfplumber`: the early-stop bound is
re-checked after each page's tables. -/
def pagesLoop (max_pairs : Int) : List Page → PState → PState
  | [], st => st
  | p :: rest, st =>
    let st' := processPage max_pairs p st
    if max_pairs * 3 ≤ ((st'.allPairs.length : Nat) : Int) then st'
    else pagesLoop max_pairs rest st'

/-- `extract_with_pdfplumber` from `extract_pdf_kv.py`, over an abstract
page list (the document already opened; `pdf.pages[:max_pages]`). -/
def extractWithPdfplumber (pdfPages : List Page)
    (max_pages max_pairs max_text_preview_chars : Int) : Extraction :=
  let st := pagesLoop max_pairs (pdfPages.take max_pages.toNat) initPState
  { pairs := st.allPairs
    kv_pairs := st.kvPairs
    table_pairs := st.tablePairs
    text_preview := ⟨(joinSep "\n" st.previewChunks).data.take
      max_text_preview_chars.toNat⟩
    pages := st.snippets
    meta := { pages_scanned := st.snippets.length
              lines_scanned := st.linesScanned
              tables_found := st.tableCount
              pairs_before_dedupe := st.allPairs.length
              kv_pairs_before_dedupe := st.kvPairs.length
              table_pairs_before_dedupe := st.tablePairs.length
              backend := "pdfplumber" } }

/-- `extract_pairs_from_text` from `extract_pdf_any.py` (plain
`{"key": k, "value": v}` dicts, no records). -/
def anyExtractTextGo (limit : Int) : List String → Nat → List (String × String)
  | [], _ => []
  | line :: rest, count =>
    let kv := parseLinePair line
    if anyPairIsValid kv.1 kv.2 then
      if limit ≤ ((count + 1 : Nat) : Int) then [kv]
      else kv :: anyExtractTextGo limit rest (count + 1)
    else anyExtractTextGo limit rest count

def anyExtractPairsFromText (text : String) (limit : Int) :
    List (String × String) :=
  anyExtractTextGo limit (splitlinesStr text) 0

/-- `extract_pairs_from_table` from `extract_pdf_any.py`. -/
def anyExtractTableGo (limit : Int) : TableGrid → Nat → List (String × String)
  | [], _ => []
  | row :: rest, count =>
    let cells := (row.map (fun c => normalizeStr (c.getD ""))).filter (fun c => c ≠ "")
    match cells with
    | c0 :: c1 :: crest =>
      let kv := (c0, joinSep " | " (c1 :: crest))
      if anyPairIsValid kv.1 kv.2 then
        if limit ≤ ((count + 1 : Nat) : Int) then [kv]
        else kv :: anyExtractTableGo limit rest (count + 1)
      else anyExtractTableGo limit rest count
    | _ => anyExtractTableGo limit rest count

def anyExtractPairsFromTable (table : TableGrid) (limit : Int) :
    List (String × String) :=
  anyExtractTableGo limit table 0

/-- The table loop of `extract_pdf_any.py`'s `extract_with_pdfplumber`:
note the early-stop bound there is `max_pairs * 2`, checked after each
table and after each page. -/
def anyTablesLoop (max_pairs : Int) : List TableGrid →
    List (String × String) → List (String × String)
  | [], acc => acc
  | t :: rest, acc =>
    let acc' := acc ++ anyExtractPairsFromTable t max_pairs
    if max_pairs * 2 ≤ ((acc'.length : Nat) : Int) then acc'
    else anyTablesLoop max_pairs rest acc'

/-- One page of `extract_pdf_any.py`'s `extract_with_pdfplumber`: text
pairs, then the page's tables. -/
def anyPageStep (max_pairs : Int) (p : Page) (acc : List (String × String)) :
    List (String × String) :=
  let normalizedLines := ((splitlinesStr p.rawText).map normalizeStr).filter
    (fun l => l ≠ "")
  let pageText := joinSep "\n" normalizedLines
  let acc1 :=
    if pageText ≠ "" then acc ++ anyExtractPairsFromText pageText max_pairs
    else acc
  let tables := match p.tablesResult with
    | .ok ts => ts
    | .error _ => []
  anyTablesLoop max_pairs tables acc1

/-- The page loop of `extract_pdf_any.py`'s `extract_with_pdfplumber`,
reduced to the accumulated raw pair list (the other locals do not feed
back into the loop's control flow). -/
def anyPagesLoop (max_pairs : Int) : List Page →
    List (String × String) → List (String × String)
  | [], acc => acc
  | p :: rest, acc =>
    let acc2 := anyPageStep max_pairs p acc
    if max_pairs * 2 ≤ ((acc2.length : Nat) : Int) then acc2
    else anyPagesLoop max_pairs rest acc2

/-- Raw-pair accumulation of `extract_with_pdfplumber` from
`extract_pdf_any.py` (`all_pairs` just before deduplication). -/
def anyRawPairs (pdfPages : List Page) (max_pages max_pairs : Int) :
    List (String × String) :=
  anyPagesLoop max_pairs (pdfPages.take max_pages.toNat) []

/-- The `meta` dict of `extract_with_tesseract_ocr` (only the fields the
envelope assembly reads back). -/
structure OcrMeta where
  pages_scanned : Nat
  lines_scanned : Nat
  pairs_before_dedupe : Nat
  ocr_confidence_avg : ℚ
  ocr_confidence_samples : Nat
  ocr_low_confidence_pairs : Nat
deriving DecidableEq, Repr

/-- The result dict of `extract_with_tesseract_ocr`. -/
structure OcrExtraction where
  pairs : List PairRecord
  kv_pairs : List PairRecord
  table_pairs : List PairRecord
  text_preview : String
  pages : List PageSnippet
  meta : OcrMeta
deriving DecidableEq, Repr

/-- The `backend` block of the output payload. -/
structure BackendBlock where
  requested : String
  selected : String
  fallback_used : Bool
  reason : String
  attempts : List String
  available : Avail
deriving DecidableEq, Repr

/-- The `meta` dict of the output payload.  Fields that the total-failure
payload of `main` does not set at all (they are absent from that dict in
the source) are `Option`-typed and `none` there. -/
structure EnvMeta where
  pages_scanned : Int
  lines_scanned : Int
  tables_found : Int
  pairs_before_dedupe : Int
  pairs_after_dedupe : Int
  kv_pairs_count : Int
  table_pairs_count : Int
  backend_requested : Option String
  backend_selected : Option String
  backend_fallback_used : Option Bool
  backend_reason : Option String
  pdf_fingerprint : Fingerprint
  scanned_pdf_detected : Bool
  scanned_pdf_chars_per_page : Option ℚ
  scanned_pdf_lines_per_page : Option ℚ
  scanned_pdf_ocr_enabled : Bool
  scanned_pdf_ocr_attempted : Bool
  scanned_pdf_ocr_backend_requested : String
  scanned_pdf_ocr_backend_selected : String
  scanned_pdf_ocr_backend_fallback_used : Bool
  scanned_pdf_ocr_backend_reason : Option String
  scanned_pdf_ocr_pair_count : Nat
  scanned_pdf_ocr_kv_pair_count : Nat
  scanned_pdf_ocr_table_pair_count : Nat
  scanned_pdf_ocr_confidence_avg : ℚ
  scanned_pdf_ocr_low_confidence_pairs : Nat
  scanned_pdf_ocr_error : String
deriving DecidableEq, Repr

/-- The JSON envelope `main` writes (`error` is only present in the
total-failure payload, hence `Option`). -/
structure Envelope where
  ok : Bool
  error : Option String
  backend : BackendBlock
  pairs : List PairRecord
  kv_pairs : List PairRecord
  table_pairs : List PairRecord
  ocr_pairs : List PairRecord
  ocr_kv_pairs : List PairRecord
  ocr_table_pairs : List PairRecord
  ocr_text_preview : String
  text_preview : String
  pages : List PageSnippet
  meta : EnvMeta
  errors : List String
deriving DecidableEq, Repr

/-- `build_attempt_order` from `extract_pdf_kv.py`. -/
def buildAttemptOrder (selected_backend : String) (available : Avail) :
    List String :=
  dedupTokens (selected_backend ::
    (["pdfplumber", "pymupdf", "camelot", "tabula"].filter
      (fun t => decide (t ≠ selected_backend) && availGet available t))) []

/-- The backend attempt loop of `main` (lines 937–967): unknown backends
(`tabula`, `legacy`) leave `extraction` as `None` and continue; an
exception records its message as the running `extraction_error`; the
first success wins.  The oracle `run` stands for the three concrete
extractor calls.  Returns the successful `(extraction, used_backend)`
and the last failure message. -/
def attemptLoop (run : String → Except String Extraction) :
    List String → String → Option (Extraction × String) × String
  | [], err => (none, err)
  | b :: rest, err =>
    if b = "pdfplumber" || b = "pymupdf" || b = "camelot" then
      match run b with
      | .ok e => (some (e, b), err)
      | .error msg => attemptLoop run rest msg
    else attemptLoop run rest err

/-- The result of the OCR orchestration block in `main`
(lines 1034–1077): the mutable locals after the conditional OCR pass. -/
structure OcrOutcome where
  attempted : Bool
  backend_selected : String
  backend_fallback_used : Bool
  backend_reason : String
  error : String
  pairs : List PairRecord
  kv_pairs : List PairRecord
  table_pairs : List PairRecord
  text_preview : String
  confidence_avg : ℚ
  low_confidence_pairs : Nat
deriving DecidableEq, Repr

/-- The unimplemented-paddleocr substitution of `main`
(lines 1049–1055): the tuple is (selected, fallback_used, reason,
error-so-far). -/
def ocrSubstitution (choice : OcrChoice) (available_ocr : OcrAvail) :
    String × Bool × String × String :=
  if choice.selected = "paddleocr" then
    if available_ocr.tesseract then
      ("tesseract", true, "paddleocr_not_implemented_fallback_tesseract", "")
    else (choice.selected, choice.fallback_used, choice.reason,
      "paddleocr_not_implemented")
  else (choice.selected, choice.fallback_used, choice.reason, "")

/-- The OCR orchestration block of `main` (lines 1034–1077): attempted
only when the caller opted in and the document was detected as scanned;
`paddleocr` is unimplemented and substitutes an available `tesseract`;
a missing or unsupported backend, or an exception from the tesseract
pass (`ocrRun = .error msg`), only records an error string. -/
def ocrBlock (enable_scanned_ocr scanned_pdf_detected : Bool)
    (choice : OcrChoice) (available_ocr : OcrAvail)
    (scanned_ocr_max_pairs max_text_preview_chars : Int)
    (ocrRun : Except String OcrExtraction) : OcrOutcome :=
  if enable_scanned_ocr && scanned_pdf_detected then
    if (ocrSubstitution choice available_ocr).1 = "none" then
      { attempted := true,
        backend_selected := (ocrSubstitution choice available_ocr).1,
        backend_fallback_used := (ocrSubstitution choice available_ocr).2.1,
        backend_reason := (ocrSubstitution choice available_ocr).2.2.1,
        error := if (ocrSubstitution choice available_ocr).2.2.2 ≠ "" then
            (ocrSubstitution choice available_ocr).2.2.2
          else "ocr_backend_unavailable",
        pairs := [], kv_pairs := [], table_pairs := [], text_preview := "",
        confidence_avg := 0, low_confidence_pairs := 0 }
    else if (ocrSubstitution choice available_ocr).1 = "tesseract" then
      match ocrRun with
      | .ok oe =>
        { attempted := true,
          backend_selected := (ocrSubstitution choice available_ocr).1,
          backend_fallback_used := (ocrSubstitution choice available_ocr).2.1,
          backend_reason := (ocrSubstitution choice available_ocr).2.2.1,
          error := (ocrSubstitution choice available_ocr).2.2.2,
          pairs := dedupePairs oe.pairs scanned_ocr_max_pairs,
          kv_pairs := (splitPairsBySurface
            (dedupePairs oe.pairs scanned_ocr_max_pairs)).1,
          table_pairs := (splitPairsBySurface
            (dedupePairs oe.pairs scanned_ocr_max_pairs)).2,
          text_preview := ⟨(normalizeStr oe.text_preview).data.take
            max_text_preview_chars.toNat⟩,
          confidence_avg := oe.meta.ocr_confidence_avg,
          low_confidence_pairs := oe.meta.ocr_low_confidence_pairs }
      | .error msg =>
        { attempted := true,
          backend_selected := (ocrSubstitution choice available_ocr).1,
          backend_fallback_used := (ocrSubstitution choice available_ocr).2.1,
          backend_reason := (ocrSubstitution choice available_ocr).2.2.1,
          error := msg,
          pairs := [], kv_pairs := [], table_pairs := [], text_preview := "",
          confidence_avg := 0, low_confidence_pairs := 0 }
    else
      { attempted := true,
        backend_selected := (ocrSubstitution choice available_ocr).1,
        backend_fallback_used := (ocrSubstitution choice available_ocr).2.1,
        backend_reason := (ocrSubstitution choice available_ocr).2.2.1,
        error := if (ocrSubstitution choice available_ocr).2.2.2 ≠ "" then
            (ocrSubstitution choice available_ocr).2.2.2
          else "unsupported_ocr_backend:" ++
            (ocrSubstitution choice available_ocr).1,
        pairs := [], kv_pairs := [], table_pairs := [], text_preview := "",
        confidence_avg := 0, low_confidence_pairs := 0 }
  else
    { attempted := false, backend_selected := choice.selected,
      backend_fallback_used := choice.fallback_used,
      backend_reason := choice.reason, error := "",
      pairs := [], kv_pairs := [], table_pairs := [], text_preview := "",
      confidence_avg := 0, low_confidence_pairs := 0 }

/-- The success payload of `main` (lines 1018–1133): deduplicate the
primary pairs, split by surface, run scanned-document detection, run the
OCR block, and assemble the envelope plus its non-fatal error list. -/
def successPayload (requested_backend : String) (choice : BackendChoice)
    (attempts : List String) (available : Avail)
    (selected_backend used_backend : String) (extraction_error : String)
    (extraction : Extraction) (fingerprint : Fingerprint)
    (max_pairs max_text_preview_chars : Int)
    (enable_scanned_ocr : Bool) (requested_scanned_ocr_backend : String)
    (available_ocr : OcrAvail) (scanned_ocr_max_pairs : Int)
    (scanned_ocr_min_chars_per_page scanned_ocr_min_lines_per_page : Int)
    (ocrRun : Except String OcrExtraction) (fingerprint_errors : List String) :
    Envelope :=
  let raw_pairs := extraction.pairs
  let deduped_pairs := dedupePairs raw_pairs max_pairs
  let split := splitPairsBySurface deduped_pairs
  let kv_pairs := split.1
  let table_pairs := split.2
  let text_preview : String :=
    ⟨(normalizeStr extraction.text_preview).data.take
      max_text_preview_chars.toNat⟩
  let pages := extraction.pages
  let scan_route := shouldRouteToScannedOcr fingerprint
    ((deduped_pairs.length : Nat) : Int) scanned_ocr_min_chars_per_page
    scanned_ocr_min_lines_per_page
  let scanned_pdf_detected := scan_route.scanned_pdf_detected
  let ocr_choice := chooseOcrBackend requested_scanned_ocr_backend available_ocr
  let ocr := ocrBlock enable_scanned_ocr scanned_pdf_detected ocr_choice
    available_ocr scanned_ocr_max_pairs max_text_preview_chars ocrRun
  let fallback_used :=
    choice.fallback_used || decide (used_backend ≠ selected_backend)
  let base_errors := fingerprint_errors ++
    (if extraction_error ≠ "" then [extraction_error] else [])
  { ok := true
    error := none
    backend := { requested := requested_backend, selected := used_backend,
                 fallback_used := fallback_used, reason := choice.reason,
                 attempts := attempts, available := available }
    pairs := deduped_pairs
    kv_pairs := kv_pairs
    table_pairs := table_pairs
    ocr_pairs := ocr.pairs
    ocr_kv_pairs := ocr.kv_pairs
    ocr_table_pairs := ocr.table_pairs
    ocr_text_preview := ocr.text_preview
    text_preview := text_preview
    pages := pages
    meta := { pages_scanned := if extraction.meta.pages_scanned = 0 then
                  (pages.length : Int) else (extraction.meta.pages_scanned : Int)
              lines_scanned := (extraction.meta.lines_scanned : Int)
              tables_found := (extraction.meta.tables_found : Int)
              pairs_before_dedupe := if extraction.meta.pairs_before_dedupe = 0 then
                  (raw_pairs.length : Int)
                else (extraction.meta.pairs_before_dedupe : Int)
              pairs_after_dedupe := (deduped_pairs.length : Int)
              kv_pairs_count := (kv_pairs.length : Int)
              table_pairs_count := (table_pairs.length : Int)
              backend_requested := some requested_backend
              backend_selected := some used_backend
              backend_fallback_used := some fallback_used
              backend_reason := some choice.reason
              pdf_fingerprint := fingerprint
              scanned_pdf_detected := scanned_pdf_detected
              scanned_pdf_chars_per_page := some scan_route.chars_per_page
              scanned_pdf_lines_per_page := some scan_route.lines_per_page
              scanned_pdf_ocr_enabled := enable_scanned_ocr
              scanned_pdf_ocr_attempted := ocr.attempted
              scanned_pdf_ocr_backend_requested := ocr_choice.requested
              scanned_pdf_ocr_backend_selected := ocr.backend_selected
              scanned_pdf_ocr_backend_fallback_used := ocr.backend_fallback_used
              scanned_pdf_ocr_backend_reason := some ocr.backend_reason
              scanned_pdf_ocr_pair_count := ocr.pairs.length
              scanned_pdf_ocr_kv_pair_count := ocr.kv_pairs.length
              scanned_pdf_ocr_table_pair_count := ocr.table_pairs.length
              scanned_pdf_ocr_confidence_avg := ocr.confidence_avg
              scanned_pdf_ocr_low_confidence_pairs := ocr.low_confidence_pairs
              scanned_pdf_ocr_error := ocr.error }
    errors := base_errors ++
      (if ocr.error ≠ "" then ["scanned_pdf_ocr:" ++ ocr.error] else []) }

/-- The total-failure payload of `main` (lines 969–1016). -/
def failurePayload (requested_backend : String) (attempts : List String)
    (available : Avail) (fingerprint : Fingerprint)
    (enable_scanned_ocr : Bool) (requested_scanned_ocr_backend : String)
    (extraction_error : String) (fingerprint_errors : List String) :
    Envelope :=
  { ok := false
    error := some (if extraction_error ≠ "" then extraction_error
      else "no_pdf_backend_available")
    backend := { requested := requested_backend, selected := "legacy",
                 fallback_used := true, reason := "no_backend_available",
                 attempts := attempts, available := available }
    pairs := []
    kv_pairs := []
    table_pairs := []
    ocr_pairs := []
    ocr_kv_pairs := []
    ocr_table_pairs := []
    ocr_text_preview := ""
    text_preview := ""
    pages := []
    meta := { pages_scanned := 0, lines_scanned := 0, tables_found := 0,
              pairs_before_dedupe := 0, pairs_after_dedupe := 0,
              kv_pairs_count := 0, table_pairs_count := 0,
              backend_requested := none, backend_selected := none,
              backend_fallback_used := none, backend_reason := none,
              pdf_fingerprint := fingerprint, scanned_pdf_detected := false,
              scanned_pdf_chars_per_page := none,
              scanned_pdf_lines_per_page := none,
              scanned_pdf_ocr_enabled := enable_scanned_ocr,
              scanned_pdf_ocr_attempted := false,
              scanned_pdf_ocr_backend_requested := requested_scanned_ocr_backend,
              scanned_pdf_ocr_backend_selected := "none",
              scanned_pdf_ocr_backend_fallback_used := false,
              scanned_pdf_ocr_backend_reason := none,
              scanned_pdf_ocr_pair_count := 0,
              scanned_pdf_ocr_kv_pair_count := 0,
              scanned_pdf_ocr_table_pair_count := 0,
              scanned_pdf_ocr_confidence_avg := 0,
              scanned_pdf_ocr_low_confidence_pairs := 0,
              scanned_pdf_ocr_error := "" }
    errors := fingerprint_errors }

/-- The CLI arguments of `extract_pdf_kv.py` after `argparse` (numeric
flags as ints, boolean opt-in still a raw token string). -/
structure MainArgs where
  backend : String
  max_pages : Int
  max_text_preview_chars : Int
  max_pairs : Int
  enable_scanned_ocr : String
  scanned_ocr_backend : String
  scanned_ocr_max_pages : Int
  scanned_ocr_max_pairs : Int
  scanned_ocr_min_chars_per_page : Int
  scanned_ocr_min_lines_per_page : Int
  scanned_ocr_min_confidence : ℚ
deriving Repr

/-- The fingerprinting stage of `main` (lines 917–927): try pdfplumber,
then pymupdf; a failure leaves the zero fingerprint and records an
advisory error. -/
def fingerprintStage (available : Avail)
    (fpRun : String → Except String Fingerprint) : Fingerprint × List String :=
  if available.pdfplumber then
    match fpRun "pdfplumber" with
    | .ok f => (f, [])
    | .error m => (zeroFingerprint, ["pdfplumber_fingerprint_failed:" ++ m])
  else if available.pymupdf then
    match fpRun "pymupdf" with
    | .ok f => (f, [])
    | .error m => (zeroFingerprint, ["pymupdf_fingerprint_failed:" ++ m])
  else (zeroFingerprint, [])

/-- The attempt order `main` derives from the fingerprint and the
requested backend. -/
def mainAttempts (args : MainArgs) (available : Avail)
    (fpRun : String → Except String Fingerprint) : List String :=
  buildAttemptOrder
    (normalizeBackend (chooseBackend (normalizeBackend args.backend) available
      (fingerprintStage available fpRun).1).selected) available

/-- `main` from `extract_pdf_kv.py`, post-argparse: clamp the
configuration (`max(1, ...)` / `max(100, ...)` etc.), fingerprint via
the `fpRun` oracle, choose a backend, walk the attempt order via the
`run` oracle, and emit an envelope plus the process exit code (always
0; every failure is data in the envelope, so the model is a total
function).  `write_json` / `print` are I/O sinks of the returned
envelope and are not modelled further. -/
def mainModel (args : MainArgs) (available : Avail) (available_ocr : OcrAvail)
    (fpRun : String → Except String Fingerprint)
    (run : String → Except String Extraction)
    (ocrRun : Except String OcrExtraction) : Envelope × Int :=
  match attemptLoop run (mainAttempts args available fpRun) "" with
  | (none, extraction_error) =>
    (failurePayload (normalizeBackend args.backend)
      (mainAttempts args available fpRun) available
      (fingerprintStage available fpRun).1
      (parseBoolToken (some args.enable_scanned_ocr) false)
      (normalizeOcrBackend args.scanned_ocr_backend) extraction_error
      (fingerprintStage available fpRun).2, 0)
  | (some (extraction, used_backend), extraction_error) =>
    (successPayload (normalizeBackend args.backend)
      (chooseBackend (normalizeBackend args.backend) available
        (fingerprintStage available fpRun).1)
      (mainAttempts args available fpRun) available
      (normalizeBackend (chooseBackend (normalizeBackend args.backend)
        available (fingerprintStage available fpRun).1).selected)
      used_backend extraction_error extraction
      (fingerprintStage available fpRun).1
      (max 100 args.max_pairs) (max 1000 args.max_text_preview_chars)
      (parseBoolToken (some args.enable_scanned_ocr) false)
      (normalizeOcrBackend args.scanned_ocr_backend) available_ocr
      (max 50 args.scanned_ocr_max_pairs)
      (max 0 args.scanned_ocr_min_chars_per_page)
      (max 0 args.scanned_ocr_min_lines_per_page)
      ocrRun (fingerprintStage available fpRun).2, 0)

/-- Value of a decimal digit string (proof-side accessor used to read
the counter back out of a rendered `row_id`). -/
def natOfDigits (l : List Char) : Nat :=
  l.foldl (fun a c => 10 * a + (c.toNat - 48)) 0

/-- The trailing digit run of a `row_id`, i.e. the zero-padded row
counter, as a number. -/
def rowCounterOfStr (rid : String) : Nat :=
  natOfDigits ((rid.data.reverse.takeWhile Char.isDigit).reverse)

def rowCounterOf (r : PairRecord) : Nat := rowCounterOfStr r.row_id

/-- Modelled from the claim's words (C3): a row counter "scoped per page
and per surface" would give the `i`-th record of a given page and
surface the counter `i`; this renders the row ids such a counter would
produce for an output list.  Compared against the ids the code produces. -/
def claimedPerPageRowIds (l : List PairRecord) : List String :=
  l.mapIdx fun i r =>
    rowIdFor r.surface r.page
      (1 + ((l.take i).filter
        (fun q => q.page == r.page && q.surface == r.surface)).length)

/-- Modelled from the claim's words (C8): a table loop that stops "as
soon as" the accumulated raw pairs reach `max_pairs * 3`, checking
before processing each table. -/
def claimedTablesLoop (max_pairs page_number : Int) :
    List TableGrid → Nat → PState → PState
  | [], _, st => st
  | t :: rest, table_index, st =>
    if max_pairs * 3 ≤ ((st.allPairs.length : Nat) : Int) then st
    else claimedTablesLoop max_pairs page_number rest (table_index + 1)
      (tableStep max_pairs page_number table_index t st)

/-- Modelled from the claim's words (C8): `processPage` with the
pre-checked table loop. -/
def claimedProcessPage (max_pairs : Int) (p : Page) (st : PState) : PState :=
  let normalizedLines := ((splitlinesStr p.rawText).map normalizeStr).filter
    (fun l => l ≠ "")
  let pageText := joinSep "\n" normalizedLines
  let page_number : Int := if p.page_number = 0 then 1 else p.page_number
  let snippet : PageSnippet :=
    { page_number := page_number, text := ⟨pageText.data.take 3000⟩,
      char_count := pageText.length }
  let st1 :=
    { st with snippets := st.snippets ++ [snippet],
              linesScanned := st.linesScanned + normalizedLines.length }
  let st2 :=
    if pageText ≠ "" then
      let res := extractPairsFromText pageText max_pairs page_number
        "pdfplumber" st1.kvCursor "pdf_kv" none false
      { st1 with kvPairs := st1.kvPairs ++ res.1,
                 allPairs := st1.allPairs ++ res.1,
                 previewChunks := st1.previewChunks ++ [pageText],
                 kvCursor := res.2 }
    else st1
  let tables := match p.tablesResult with
    | .ok ts => ts
    | .error _ => []
  let st3 := { st2 with tableCount := st2.tableCount + tables.length }
  claimedTablesLoop max_pairs page_number tables 0 st3

/-- Modelled from the claim's words (C8): the page loop that stops as
soon as the bound is reached, checking before each page. -/
def claimedPagesLoop (max_pairs : Int) : List Page → PState → PState
  | [], st => st
  | p :: rest, st =>
    if max_pairs * 3 ≤ ((st.allPairs.length : Nat) : Int) then st
    else claimedPagesLoop max_pairs rest (claimedProcessPage max_pairs p st)

/-- Raw pair count the claimed (stop-as-soon-as-reached) pdfplumber pass
would accumulate. -/
def claimedRawPairCount (pdfPages : List Page) (max_pages max_pairs : Int) :
    Nat :=
  (claimedPagesLoop max_pairs (pdfPages.take max_pages.toNat) initPState).allPairs.length

/-- Modelled from the claim's words (C8), for `extract_pdf_any.py`'s
pdfplumber pass: a table loop that would stop at three times
`max_pairs`, checking before each table. -/
def claimedAnyTablesLoop3 (max_pairs : Int) : List TableGrid →
    List (String × String) → List (String × String)
  | [], acc => acc
  | t :: rest, acc =>
    if max_pairs * 3 ≤ ((acc.length : Nat) : Int) then acc
    else claimedAnyTablesLoop3 max_pairs rest
      (acc ++ anyExtractPairsFromTable t max_pairs)

/-- Modelled from the claim's words (C8): the page loop of
`extract_pdf_any.py`'s pdfplumber pass, were it to stop at three times
`max_pairs` as the claim states. -/
def claimedAnyPagesLoop3 (max_pairs : Int) : List Page →
    List (String × String) → List (String × String)
  | [], acc => acc
  | p :: rest, acc =>
    if max_pairs * 3 ≤ ((acc.length : Nat) : Int) then acc
    else
      let normalizedLines := ((splitlinesStr p.rawText).map normalizeStr).filter
        (fun l => l ≠ "")
      let pageText := joinSep "\n" normalizedLines
      let acc1 :=
        if pageText ≠ "" then acc ++ anyExtractPairsFromText pageText max_pairs
        else acc
      let tables := match p.tablesResult with
        | .ok ts => ts
        | .error _ => []
      claimedAnyPagesLoop3 max_pairs rest (claimedAnyTablesLoop3 max_pairs tables acc1)

def claimedAnyRawPairs3 (pdfPages : List Page) (max_pages max_pairs : Int) :
    List (String × String) :=
  claimedAnyPagesLoop3 max_pairs (pdfPages.take max_pages.toNat) []

/-- Shape invariant for a record produced by the pdfplumber pass: its
surface is one of the two primary tokens and its `row_id` renders a
page and a positive counter bounded by the corresponding cursor. -/
def RecShape (r : PairRecord) (kvCursor tableCursor : Int) : Prop :=
  (r.surface = "pdf_kv" ∧ ∃ (p : Nat) (i : Nat), 1 ≤ i ∧ (i : Int) ≤ kvCursor ∧
    r.row_id = rowIdFor "pdf_kv" p i ∧ rowCounterOf r = i) ∨
  (r.surface = "pdf_table" ∧ ∃ (p : Nat) (i : Nat), 1 ≤ i ∧ (i : Int) ≤ tableCursor ∧
    r.row_id = rowIdFor "pdf_table" p i ∧ rowCounterOf r = i)

/-- Two records of the same surface appear with strictly increasing row
counters. -/
def SurfOrd (a b : PairRecord) : Prop :=
  a.surface = b.surface → rowCounterOf a < rowCounterOf b

/-- Invariant of the pdfplumber page-loop state. -/
def StInv (st : PState) : Prop :=
  0 ≤ st.kvCursor ∧ 0 ≤ st.tableCursor ∧
  (∀ r ∈ st.allPairs, RecShape r st.kvCursor st.tableCursor) ∧
  st.allPairs.Pairwise SurfOrd

/-! ### Concrete fixtures for counterexamples and witnesses -/

/-- A one-line page with a single valid `key: value` line and no tables. -/
def pageKv1 : Page := { page_number := 1, rawText := "ab: cd", tablesResult := .ok [] }

def pageKv2 : Page := { page_number := 2, rawText := "ab: cd", tablesResult := .ok [] }

/-- A one-row two-cell table. -/
def tableEfGh : TableGrid := [[some "ef", some "gh"]]

/-- A page with one valid text line and one one-row table. -/
def pageKv3WithTable : Page :=
  { page_number := 3, rawText := "ab: cd", tablesResult := .ok [tableEfGh] }

/-- A plain third page with one valid text line, no tables. -/
def pageKv3 : Page := { page_number := 3, rawText := "ab: cd", tablesResult := .ok [] }

/-- A pair-record dict as `dedupe_pairs` may receive it from arbitrary
callers: dedup-relevant fields chosen freely, the rest inert (the Python
function reads only `normalized_key`/`key`/`normalized_value`/`value`). -/
def mkRawRecord (k nk v nv : String) : PairRecord :=
  { key := k, value := v, raw_key := k, raw_value := v, normalized_key := nk,
    normalized_value := nv, table_id := none, row_id := "",
    section_header := none, column_header := none, unit_hint := none,
    surface := "pdf_kv", path := "", page := 1, bbox := none,
    backend := "pdfplumber", ocr_confidence := none,
    ocr_low_confidence := false }

/-- A well-formed record built by the engine itself. -/
def recAbCd : PairRecord :=
  buildPairRecord "ab" "cd" 1 "pdf_kv" "pdfplumber" 1 "" "" "" none none false

/-- A page with one valid text line and two one-row tables. -/
def pageTwoTables : Page :=
  { page_number := 1, rawText := "ab: cd", tablesResult := .ok [tableEfGh, tableEfGh] }

/-- An in-flight extraction state that already accumulated two pairs. -/
def stTwoPairs : PState :=
  { initPState with allPairs := [recAbCd, recAbCd] }

/-- The default CLI arguments of `extract_pdf_kv.py`. -/
def defaultArgs : MainArgs :=
  { backend := "auto"
    max_pages := 60
    max_text_preview_chars := 20000
    max_pairs := 5000
    enable_scanned_ocr := "0"
    scanned_ocr_backend := "auto"
    scanned_ocr_max_pages := 8
    scanned_ocr_max_pairs := 1200
    scanned_ocr_min_chars_per_page := 45
    scanned_ocr_min_lines_per_page := 3
    scanned_ocr_min_confidence := Rat.divInt 55 100 }

/-- No extraction backend importable. -/
def noAvail : Avail := { pdfplumber := false, pymupdf := false, camelot := false, tabula := false }

/-- Only pdfplumber importable. -/
def onlyPdfplumber : Avail := { pdfplumber := true, pymupdf := false, camelot := false, tabula := false }

/-- No OCR backend importable. -/
def noOcrAvail : OcrAvail := { tesseract := false, paddleocr := false }

/-- An extraction result with no pairs (used to drive the OCR branch). -/
def emptyExtraction : Extraction :=
  { pairs := [], kv_pairs := [], table_pairs := [], text_preview := "",
    pages := [],
    meta := { pages_scanned := 0, lines_scanned := 0, tables_found := 0,
              pairs_before_dedupe := 0, kv_pairs_before_dedupe := 0,
              table_pairs_before_dedupe := 0, backend := "pdfplumber" } }

/-- Specification of one extraction batch (free-text or table loop):
the row cursor only moves forward, every emitted record carries the
fixed surface and a `row_id` rendering the page index with a counter
strictly between the entry cursor and the exit cursor, and the counters
strictly increase along the batch. -/
def GoOutSpec (surface : String) (page_number ri : Int)
    (out : List PairRecord × Int) : Prop :=
  ri ≤ out.2 ∧
  (∀ r ∈ out.1, r.surface = surface ∧
    ∃ i : Nat, ri < (i : Int) ∧ (i : Int) ≤ out.2 ∧
      r.row_id = rowIdFor surface
        ((max 1 (if page_number = 0 then 1 else page_number)).toNat) i ∧
      rowCounterOf r = i) ∧
  out.1.Pairwise (fun a b => rowCounterOf a < rowCounterOf b)

/-! ### Theorems -/

/-- C10: for every invocation of `build_pair_record`, the returned
record's `surface` is exactly one of `pdf_kv`, `pdf_table`,
`scanned_pdf_ocr_kv`, `scanned_pdf_ocr_table`; any surface argument
whose whitespace-normalized, lower-cased form is outside this set is
silently coerced to `pdf_kv`. -/
theorem c10_surface_invariant (key value : String) (page_number : Int)
    (surface backend : String) (row_index : Int)
    (table_id section_header column_header : String) (bbox : Option BBox)
    (ocr_confidence : Option ℚ) (ocr_low_confidence : Bool) :
    ((buildPairRecord key value page_number surface backend row_index table_id
        section_header column_header bbox ocr_confidence ocr_low_confidence).surface = "pdf_kv" ∨
     (buildPairRecord key value page_number surface backend row_index table_id
        section_header column_header bbox ocr_confidence ocr_low_confidence).surface = "pdf_table" ∨
     (buildPairRecord key value page_number surface backend row_index table_id
        section_header column_header bbox ocr_confidence ocr_low_confidence).surface = "scanned_pdf_ocr_kv" ∨
     (buildPairRecord key value page_number surface backend row_index table_id
        section_header column_header bbox ocr_confidence ocr_low_confidence).surface = "scanned_pdf_ocr_table") ∧
    (strLower (normalizeStr surface) ≠ "pdf_kv" →
     strLower (normalizeStr surface) ≠ "pdf_table" →
     strLower (normalizeStr surface) ≠ "scanned_pdf_ocr_kv" →
     strLower (normalizeStr surface) ≠ "scanned_pdf_ocr_table" →
     (buildPairRecord key value page_number surface backend row_index table_id
        section_header column_header bbox ocr_confidence ocr_low_confidence).surface = "pdf_kv") := by
  have hcases : ∀ s : String, surfaceTokenOf s = "pdf_kv" ∨
      surfaceTokenOf s = "pdf_table" ∨ surfaceTokenOf s = "scanned_pdf_ocr_kv" ∨
      surfaceTokenOf s = "scanned_pdf_ocr_table" := by
    intro s
    simp only [surfaceTokenOf]
    split_ifs with h1 h2 <;> simp_all <;> tauto
  have hdefault : ∀ s : String, strLower (normalizeStr s) ≠ "pdf_kv" →
      strLower (normalizeStr s) ≠ "pdf_table" →
      strLower (normalizeStr s) ≠ "scanned_pdf_ocr_kv" →
      strLower (normalizeStr s) ≠ "scanned_pdf_ocr_table" →
      surfaceTokenOf s = "pdf_kv" := by
    intro s n1 n2 n3 n4
    simp only [surfaceTokenOf]
    split_ifs with h1 h2 <;> simp_all
  have hsurf : (buildPairRecord key value page_number surface backend row_index
      table_id section_header column_header bbox ocr_confidence
      ocr_low_confidence).surface = surfaceTokenOf surface := by
    simp [buildPairRecord]
  rw [hsurf]
  exact ⟨hcases surface, hdefault surface⟩

/-- Witness for C10 at a concrete out-of-set surface token. -/
theorem c10_surface_invariant_witness :
    (buildPairRecord "ab" "cd" 1 "bogus" "pdfplumber" 1 "" "" "" none none
      false).surface = "pdf_kv" :=
  (c10_surface_invariant "ab" "cd" 1 "bogus" "pdfplumber" 1 "" "" "" none none
    false).2 (by decide) (by decide) (by decide) (by decide)

/-- The `extract_pdf_kv.py` validity predicate, in bound form. -/
theorem pairIsValid_iff (key value : String) :
    pairIsValid key value = true ↔
      (2 ≤ key.length ∧ key.length ≤ 160 ∧ value.length ≤ 1200 ∧
        hasAlnum key = true ∧ hasAlnum value = true) := by
  unfold pairIsValid
  split_ifs with h1 h2 h3 h4 h5
  · simp only [Bool.or_eq_true, decide_eq_true_eq] at h1
    simp only [false_iff]
    rintro ⟨c1, _, _, _, c5⟩
    rcases h1 with h | h
    · subst h; exact absurd c1 (by decide)
    · subst h; exact absurd c5 (by decide)
  · simp only [Bool.or_eq_true, decide_eq_true_eq] at h2
    simp only [false_iff]
    rintro ⟨c1, c2, _, _, _⟩
    omega
  · simp only [false_iff]
    rintro ⟨_, _, c3, _, _⟩
    omega
  · simp only [Bool.not_eq_true'] at h4
    simp only [false_iff]
    rintro ⟨_, _, _, c4, _⟩
    rw [c4] at h4
    cases h4
  · simp only [Bool.not_eq_true'] at h5
    simp only [false_iff]
    rintro ⟨_, _, _, _, c5⟩
    rw [c5] at h5
    cases h5
  · simp only [true_iff]
    simp at h1 h2 h4 h5
    exact ⟨by omega, by omega, by omega, h4, h5⟩

/-- Every record emitted by the text-pair loop passed the validity
check on its raw key/value. -/
theorem extractTextGo_mem_valid (limit page_number : Int)
    (surface backend : String) (oc : Option ℚ) (olc : Bool) :
    ∀ (lines : List String) (ri : Int) (cnt : Nat) (r : PairRecord),
      r ∈ (extractTextGo limit page_number surface backend oc olc lines ri cnt).1 →
      pairIsValid r.raw_key r.raw_value = true := by
  intro lines
  induction lines with
  | nil => intro ri cnt r h; simp [extractTextGo] at h
  | cons line rest ih =>
    intro ri cnt r h
    rw [extractTextGo] at h
    by_cases hv : pairIsValid (parseLinePair line).1 (parseLinePair line).2 = true
    · simp only [hv, if_true] at h
      by_cases hl : limit ≤ ((cnt + 1 : Nat) : Int)
      · simp only [if_pos hl] at h
        simp at h
        subst h
        simpa [buildPairRecord] using hv
      · simp only [if_neg hl] at h
        simp at h
        rcases h with h | h
        · subst h
          simpa [buildPairRecord] using hv
        · exact ih _ _ r h
    · simp only [Bool.not_eq_true] at hv
      simp only [hv, if_false] at h
      exact ih _ _ r h

/-- The `extract_pdf_any.py` validity predicate implies the claimed
bounds (its own bounds 2–120 / ≤800 are tighter). -/
theorem anyPairIsValid_bounds (key value : String) :
    anyPairIsValid key value = true →
      (2 ≤ key.length ∧ key.length ≤ 160 ∧ value.length ≤ 1200 ∧
        hasAlnum key = true ∧ hasAlnum value = true) := by
  intro h
  unfold anyPairIsValid at h
  split_ifs at h with h1 h2 h3 h4 h5
  simp at h1 h2 h4 h5
  exact ⟨by omega, by omega, by omega, h4, h5⟩

/-- Every pair emitted by `extract_pdf_any.py`'s text loop passed its
validity check. -/
theorem anyExtractTextGo_mem_valid (limit : Int) :
    ∀ (lines : List String) (cnt : Nat) (kv : String × String),
      kv ∈ anyExtractTextGo limit lines cnt →
      anyPairIsValid kv.1 kv.2 = true := by
  intro lines
  induction lines with
  | nil => intro cnt kv h; simp [anyExtractTextGo] at h
  | cons line rest ih =>
    intro cnt kv h
    rw [anyExtractTextGo] at h
    by_cases hv : anyPairIsValid (parseLinePair line).1 (parseLinePair line).2 = true
    · simp only [hv, if_true] at h
      by_cases hl : limit ≤ ((cnt + 1 : Nat) : Int)
      · simp only [if_pos hl] at h
        simp at h
        subst h
        exact hv
      · simp only [if_neg hl] at h
        simp at h
        rcases h with h | h
        · subst h; exact hv
        · exact ih _ kv h
    · simp only [Bool.not_eq_true] at hv
      simp only [hv, if_false] at h
      exact ih _ kv h

/-- C5: a candidate pair produces a record only if the key length is in
[2,160], the value length is ≤ 1200 and both sides contain an
alphanumeric character — this is exactly `pair_is_valid` in
`extract_pdf_kv.py` and is implied by the (tighter) `pair_is_valid` of
`extract_pdf_any.py`; pairs failing the check are silently dropped by
the extraction loops, which have no error channel, so every emitted
record satisfies the check on its raw key/value. -/
theorem c5_validity_bounds :
    (∀ key value : String, pairIsValid key value = true ↔
      (2 ≤ key.length ∧ key.length ≤ 160 ∧ value.length ≤ 1200 ∧
        hasAlnum key = true ∧ hasAlnum value = true)) ∧
    (∀ key value : String, anyPairIsValid key value = true →
      (2 ≤ key.length ∧ key.length ≤ 160 ∧ value.length ≤ 1200 ∧
        hasAlnum key = true ∧ hasAlnum value = true)) ∧
    (∀ (text : String) (limit page_number : Int) (backend : String)
        (start_index : Int) (surface : String) (oc : Option ℚ) (olc : Bool)
        (r : PairRecord),
      r ∈ (extractPairsFromText text limit page_number backend start_index
        surface oc olc).1 →
      pairIsValid r.raw_key r.raw_value = true) ∧
    (∀ (text : String) (limit : Int) (kv : String × String),
      kv ∈ anyExtractPairsFromText text limit →
      anyPairIsValid kv.1 kv.2 = true) := by
  refine ⟨pairIsValid_iff, anyPairIsValid_bounds, ?_, ?_⟩
  · intro text limit page_number backend start_index surface oc olc r h
    exact extractTextGo_mem_valid limit page_number surface backend oc olc _ _ _ r h
  · intro text limit kv h
    exact anyExtractTextGo_mem_valid limit _ _ kv h

/-- Witness for C5: concrete valid and invalid pairs. -/
theorem c5_validity_bounds_witness :
    pairIsValid "DPI" "26000" = true ∧ pairIsValid "D" "26000" = false ∧
    (buildPairRecord "ab" "cd" 1 "pdf_kv" "pdfplumber" 1 "" "" "" none none
        false) ∈ (extractPairsFromText "ab: cd" 100 1 "pdfplumber" 0 "pdf_kv"
        none false).1 ∧
    pairIsValid (buildPairRecord "ab" "cd" 1 "pdf_kv" "pdfplumber" 1 "" "" ""
      none none false).raw_key (buildPairRecord "ab" "cd" 1 "pdf_kv"
      "pdfplumber" 1 "" "" "" none none false).raw_value = true := by
  have hlist : (extractPairsFromText "ab: cd" 100 1 "pdfplumber" 0 "pdf_kv"
      none false).1 = [buildPairRecord "ab" "cd" 1 "pdf_kv" "pdfplumber" 1 ""
      "" "" none none false] := by rfl
  have hmem : (buildPairRecord "ab" "cd" 1 "pdf_kv" "pdfplumber" 1 "" "" ""
      none none false) ∈ (extractPairsFromText "ab: cd" 100 1 "pdfplumber" 0
      "pdf_kv" none false).1 := by rw [hlist]; exact List.mem_singleton.2 rfl
  refine ⟨?_, by decide, hmem, ?_⟩
  · exact (pairIsValid_iff "DPI" "26000").2 (by decide)
  · exact (c5_validity_bounds.2.2.1 "ab: cd" 100 1 "pdfplumber" 0 "pdf_kv"
      none false _ hmem)

/-- Counterexample for C2: a fingerprint with `chars_per_page = 500`
(500 chars on one page) but a single text line is flagged as scanned at
the default thresholds (45 chars / 3 lines), because the near-empty-text
test is a disjunction and `lines_per_page = 1 ≤ 3`; so "for every
document whose fingerprint gives `chars_per_page = 500` ... 
`scanned_pdf_detected` is false" fails. -/
theorem c2_counterexample :
    (shouldRouteToScannedOcr
        { pages_scanned := 1, tables_found := 0, lines_scanned := 1,
          text_chars := 500, table_density := 0, avg_chars_per_page := 500 }
        0 45 3).chars_per_page = 500 ∧
    (shouldRouteToScannedOcr
        { pages_scanned := 1, tables_found := 0, lines_scanned := 1,
          text_chars := 500, table_density := 0, avg_chars_per_page := 500 }
        0 45 3).scanned_pdf_detected = true := by
  constructor
  · show Rat.divInt (max 0 500) (max 1 1) = 500
    decide
  · simp only [shouldRouteToScannedOcr, Bool.and_eq_true, decide_eq_true_eq]
    refine ⟨Or.inr ?_, by decide⟩
    decide

/-- C2 (amended): `scanned_pdf_detected` is true exactly when the
near-empty-text disjunction (chars-per-page at or below the clamped
chars threshold OR lines-per-page at or below the clamped lines
threshold) holds AND the post-dedupe pair count is at most
`max 6 (pages_scanned * 2)`; consequently a document with
`chars_per_page = 500` is not flagged provided the chars threshold is
below 500 AND its lines-per-page exceeds the lines threshold, even with
zero pairs after dedupe. -/
theorem c2_scan_detection_spec (fingerprint : Fingerprint)
    (pairs_after_dedupe min_chars_per_page min_lines_per_page : Int) :
    ((shouldRouteToScannedOcr fingerprint pairs_after_dedupe
        min_chars_per_page min_lines_per_page).scanned_pdf_detected = true ↔
      (((shouldRouteToScannedOcr fingerprint pairs_after_dedupe
          min_chars_per_page min_lines_per_page).chars_per_page ≤
            ((max 0 min_chars_per_page : Int) : ℚ) ∨
        (shouldRouteToScannedOcr fingerprint pairs_after_dedupe
          min_chars_per_page min_lines_per_page).lines_per_page ≤
            ((max 0 min_lines_per_page : Int) : ℚ)) ∧
       pairs_after_dedupe ≤ max 6 (max 1 fingerprint.pages_scanned * 2))) ∧
    ((shouldRouteToScannedOcr fingerprint pairs_after_dedupe
        min_chars_per_page min_lines_per_page).chars_per_page = 500 →
     ((max 0 min_chars_per_page : Int) : ℚ) < 500 →
     ((max 0 min_lines_per_page : Int) : ℚ) <
        (shouldRouteToScannedOcr fingerprint pairs_after_dedupe
          min_chars_per_page min_lines_per_page).lines_per_page →
     (shouldRouteToScannedOcr fingerprint pairs_after_dedupe
        min_chars_per_page min_lines_per_page).scanned_pdf_detected = false) := by
  constructor
  · simp only [shouldRouteToScannedOcr, Bool.and_eq_true, decide_eq_true_eq]
  · intro hc hmc hml
    simp only [shouldRouteToScannedOcr] at hc hml ⊢
    simp only [Bool.and_eq_true, decide_eq_true_eq, Bool.and_eq_false_iff,
      decide_eq_false_iff_not]
    left
    rw [not_or]
    constructor
    · rw [hc]; exact not_le.2 hmc
    · exact not_le.2 hml

/-- Witness for C2: a dense multi-line 500-chars-per-page fingerprint
with zero pairs is not flagged at the default thresholds. -/
theorem c2_scan_detection_spec_witness :
    (shouldRouteToScannedOcr
        { pages_scanned := 1, tables_found := 0, lines_scanned := 10,
          text_chars := 500, table_density := 0, avg_chars_per_page := 500 }
        0 45 3).scanned_pdf_detected = false := by
  refine (c2_scan_detection_spec
      { pages_scanned := 1, tables_found := 0, lines_scanned := 10,
        text_chars := 500, table_density := 0, avg_chars_per_page := 500 }
      0 45 3).2 ?_ ?_ ?_
  · show Rat.divInt (max 0 500) (max 1 1) = 500
    decide
  · decide
  · show ((max 0 3 : Int) : ℚ) < Rat.divInt (max 0 10) (max 1 1)
    decide

/-- Counterexample for C7: when no unit pattern matches, the record's
`unit_hint` is `None` (JSON `null`), not the empty string — line 160
stores `infer_unit_hint(...) or None`. -/
theorem c7_counterexample :
    (buildPairRecord "Foo" "Bar" 1 "pdf_kv" "pdfplumber" 1 "" "" "" none none
      false).unit_hint = none ∧
    (buildPairRecord "Foo" "Bar" 1 "pdf_kv" "pdfplumber" 1 "" "" "" none none
      false).unit_hint ≠ some "" := by
  constructor <;> decide

/-- C7 (amended): `infer_unit_hint` tests its fixed ordered pattern list
over the combined key+value text with the first match winning, the
record's `unit_hint` stores the inferred token and is `None` (not `""`)
when no pattern matches; the two-line input of scenario A produces
exactly two `pdf_kv` records with hints `g` and `dpi`. -/
theorem c7_unit_hint_spec :
    (∀ (key value : String) (page_number : Int) (surface backend : String)
        (row_index : Int) (table_id section_header column_header : String)
        (bbox : Option BBox) (oc : Option ℚ) (olc : Bool),
      (buildPairRecord key value page_number surface backend row_index
          table_id section_header column_header bbox oc olc).unit_hint =
        (if inferUnitHint (normalizeStr key) (normalizeStr value) = "" then
          none
         else some (inferUnitHint (normalizeStr key) (normalizeStr value)))) ∧
    (∀ key value : String,
      hasAnyWord ["dpi", "cpi"]
        ((key.data ++ ' ' :: value.data).map Char.toLower) = true →
      inferUnitHint key value = "dpi") ∧
    inferUnitHint "size" "10 mm 5 g" = "mm" ∧
    ((extractPairsFromText "Weight: 63 g\nDPI: 26000" 100 1 "pdfplumber" 0
        "pdf_kv" none false).1.map (fun r => (r.surface, r.unit_hint)) =
      [("pdf_kv", some "g"), ("pdf_kv", some "dpi")]) := by
  refine ⟨?_, ?_, by decide, by rfl⟩
  · intro key value page_number surface backend row_index table_id
      section_header column_header bbox oc olc
    simp [buildPairRecord]
  · intro key value h
    simp only [inferUnitHint]
    rw [if_pos h]

/-- Witness for C7's quantified parts at concrete inputs. -/
theorem c7_unit_hint_spec_witness :
    (buildPairRecord "Weight" "63 g" 1 "pdf_kv" "pdfplumber" 1 "" "" "" none
      none false).unit_hint =
      (if inferUnitHint (normalizeStr "Weight") (normalizeStr "63 g") = ""
       then none
       else some (inferUnitHint (normalizeStr "Weight") (normalizeStr "63 g"))) ∧
    inferUnitHint "DPI" "26000" = "dpi" := by
  constructor
  · exact c7_unit_hint_spec.1 "Weight" "63 g" 1 "pdf_kv" "pdfplumber" 1 "" ""
      "" none none false
  · exact c7_unit_hint_spec.2.1 "DPI" "26000" (by decide)

/-- The `first_available` loop returns exactly the first ranked token
whose availability flag is set. -/
theorem firstAvailableIn_eq_find (a : Avail) :
    ∀ (l : List String) (b : String),
      l.find? (fun t => availGet a t) = some b → firstAvailableIn a l = b := by
  intro l
  induction l with
  | nil => intro b h; simp [List.find?] at h
  | cons t rest ih =>
    intro b h
    rw [List.find?] at h
    by_cases ht : availGet a t
    · simp only [ht] at h
      simp only [Option.some.injEq] at h
      subst h
      simp [firstAvailableIn, ht]
    · simp only [Bool.not_eq_true] at ht
      simp only [ht] at h
      simp [firstAvailableIn, ht]
      exact ih b h

/-- C6: for every fingerprint and availability map, `choose_backend`
with a concrete recognized non-`auto`, non-`legacy` requested token
selects that token with reason `requested_<token>` and no fallback when
available; when unavailable it selects the first available backend in
ranked order with `fallback_used = true` and a reason that is
`requested_unavailable_fallback_` followed by the selected token. -/
theorem c6_backend_selection (req : String) (available : Avail)
    (fingerprint : Fingerprint)
    (hreq : req = "pdfplumber" ∨ req = "pymupdf" ∨ req = "camelot" ∨
      req = "tabula") :
    (availGet available req = true →
      (chooseBackend req available fingerprint).selected = req ∧
      (chooseBackend req available fingerprint).fallback_used = false ∧
      (chooseBackend req available fingerprint).reason = "requested_" ++ req) ∧
    (availGet available req = false →
      ∀ b : String,
        (rankedBackends fingerprint.table_density).find?
          (fun t => availGet available t) = some b →
        (chooseBackend req available fingerprint).selected = b ∧
        (chooseBackend req available fingerprint).fallback_used = true ∧
        (chooseBackend req available fingerprint).reason =
          "requested_unavailable_fallback_" ++ b ∧
        ∃ suffix, (chooseBackend req available fingerprint).reason =
          "requested_unavailable_fallback_" ++ suffix) := by
  have hnorm : normalizeBackend req = req := by
    rcases hreq with h | h | h | h <;> subst h <;> decide
  have hne_auto : req ≠ "auto" := by
    rcases hreq with h | h | h | h <;> subst h <;> decide
  have hne_legacy : req ≠ "legacy" := by
    rcases hreq with h | h | h | h <;> subst h <;> decide
  constructor
  · intro hav
    simp only [chooseBackend, hnorm]
    rw [if_pos (by simpa using hne_auto)]
    rw [if_neg (by simpa using hne_legacy)]
    rw [if_pos hav]
    exact ⟨rfl, rfl, rfl⟩
  · intro hav b hfind
    have hfa : firstAvailableIn available
        (rankedBackends fingerprint.table_density) = b :=
      firstAvailableIn_eq_find available _ b hfind
    simp only [chooseBackend, hnorm]
    rw [if_pos (by simpa using hne_auto)]
    rw [if_neg (by simpa using hne_legacy)]
    rw [if_neg (by simp [hav])]
    refine ⟨by simp [hfa], by simp, by simp [hfa], b, by simp [hfa]⟩

/-- Witness for C6: `camelot` requested but unavailable with only
pdfplumber importable falls back to pdfplumber; `pdfplumber` requested
and available is selected directly. -/
theorem c6_backend_selection_witness :
    (chooseBackend "camelot" onlyPdfplumber zeroFingerprint).selected =
      "pdfplumber" ∧
    (chooseBackend "camelot" onlyPdfplumber zeroFingerprint).fallback_used =
      true ∧
    (chooseBackend "camelot" onlyPdfplumber zeroFingerprint).reason =
      "requested_unavailable_fallback_pdfplumber" ∧
    (chooseBackend "pdfplumber" onlyPdfplumber zeroFingerprint).selected =
      "pdfplumber" ∧
    (chooseBackend "pdfplumber" onlyPdfplumber zeroFingerprint).reason =
      "requested_pdfplumber" := by
  have hranked : rankedBackends zeroFingerprint.table_density =
      ["pdfplumber", "pymupdf", "tabula"] := by
    simp only [zeroFingerprint]
    simp only [rankedBackends]
    rw [if_neg (by decide)]
    rfl
  have h1 := (c6_backend_selection "camelot" onlyPdfplumber zeroFingerprint
    (by tauto)).2 (by decide) "pdfplumber" (by rw [hranked]; decide)
  have h2 := (c6_backend_selection "pdfplumber" onlyPdfplumber zeroFingerprint
    (by tauto)).1 (by decide)
  exact ⟨h1.1, h1.2.1, h1.2.2.1, h2.1, h2.2.2⟩

theorem strLower_eq_empty_iff (s : String) : strLower s = "" ↔ s = "" := by
  cases s with
  | mk data => simp [strLower, String.ext_iff]

/-- A record skipped for an empty dedup key/value can never share a
signature with a record whose dedup key and value are both non-empty. -/
theorem dedupeSig_ne_of_empty (p q : PairRecord)
    (hp : dedupeSigKey p = "" ∨ dedupeSigValue p = "")
    (hqk : dedupeSigKey q ≠ "") (hqv : dedupeSigValue q ≠ "") :
    dedupeSig p ≠ dedupeSig q := by
  intro heq
  unfold dedupeSig at heq
  rw [Prod.mk.injEq] at heq
  rcases hp with hp | hp
  · have h1 : strLower (dedupeSigKey p) = "" := by
      rw [hp]; rfl
    have h2 : strLower (dedupeSigKey q) ≠ "" := by
      intro h; exact hqk ((strLower_eq_empty_iff _).1 h)
    exact h2 (heq.1 ▸ h1)
  · have h1 : strLower (dedupeSigValue p) = "" := by
      rw [hp]; rfl
    have h2 : strLower (dedupeSigValue q) ≠ "" := by
      intro h; exact hqv ((strLower_eq_empty_iff _).1 h)
    exact h2 (heq.2 ▸ h1)

/-- Full characterization of the `dedupe_pairs` loop: the output extends
the accumulator with a `kept` list that is an order-preserving sublist of
the input, keeps only records with non-empty dedup keys/values whose
signature was not already seen, has pairwise-distinct signatures,
respects the cap, and keeps only first occurrences of each signature. -/
theorem dedupeGo_spec (L : Int) :
    ∀ (ps : List PairRecord) (seen : List (String × String))
      (out : List PairRecord),
      ∃ kept : List PairRecord,
        dedupeGo L ps seen out = out.reverse ++ kept ∧
        kept.Sublist ps ∧
        (∀ q ∈ kept, dedupeSigKey q ≠ "" ∧ dedupeSigValue q ≠ "" ∧
          dedupeSig q ∉ seen) ∧
        (kept.map dedupeSig).Nodup ∧
        ((out.length : Int) < L → (out.length : Int) + kept.length ≤ L) ∧
        (∀ q ∈ kept, ∃ pre post, ps = pre ++ q :: post ∧
          ∀ p ∈ pre, dedupeSig p ≠ dedupeSig q) := by
  intro ps
  induction ps with
  | nil =>
    intro seen out
    refine ⟨[], by simp [dedupeGo], by simp, by simp, by simp, ?_, by simp⟩
    intro h
    simpa using h.le
  | cons p ps ih =>
    intro seen out
    simp only [dedupeGo]
    split_ifs with h1 h2 h3
    · -- empty dedup key or value: skip
      obtain ⟨kept, heq, hsub, hok, hnodup, hlen, hfirst⟩ := ih seen out
      simp only [Bool.or_eq_true, decide_eq_true_eq] at h1
      refine ⟨kept, heq, hsub.cons p, hok, hnodup, hlen, ?_⟩
      intro q hq
      obtain ⟨pre, post, hps, hpre⟩ := hfirst q hq
      obtain ⟨hqk, hqv, _⟩ := hok q hq
      refine ⟨p :: pre, post, by rw [hps, List.cons_append], ?_⟩
      intro p' hp'
      rcases List.mem_cons.1 hp' with h | h
      · rw [h]
        exact dedupeSig_ne_of_empty p q h1 hqk hqv
      · exact hpre p' h
    · -- already-seen signature: skip
      obtain ⟨kept, heq, hsub, hok, hnodup, hlen, hfirst⟩ := ih seen out
      have hmem : dedupeSig p ∈ seen := by
        simpa using h2
      refine ⟨kept, heq, hsub.cons p, hok, hnodup, hlen, ?_⟩
      intro q hq
      obtain ⟨pre, post, hps, hpre⟩ := hfirst q hq
      obtain ⟨_, _, hnotseen⟩ := hok q hq
      refine ⟨p :: pre, post, by rw [hps, List.cons_append], ?_⟩
      intro p' hp'
      rcases List.mem_cons.1 hp' with h | h
      · rw [h]
        intro hcontra
        exact hnotseen (hcontra ▸ hmem)
      · exact hpre p' h
    · -- kept, and the cap is reached: stop
      simp only [Bool.or_eq_true, decide_eq_true_eq, not_or] at h1
      refine ⟨[p], by simp, by simp, ?_, by simp, ?_, ?_⟩
      · intro q hq
        rcases List.mem_singleton.1 hq with rfl
        exact ⟨h1.1, h1.2, by simpa using h2⟩
      · intro hlt
        simp only [List.length_singleton]
        simp only [List.length_cons, Nat.cast_add, Nat.cast_one] at h3
        omega
      · intro q hq
        rcases List.mem_singleton.1 hq with rfl
        exact ⟨[], ps, rfl, by simp⟩
    · -- kept, cap not yet reached: continue
      obtain ⟨kept, heq, hsub, hok, hnodup, hlen, hfirst⟩ :=
        ih (dedupeSig p :: seen) (p :: out)
      simp only [Bool.or_eq_true, decide_eq_true_eq, not_or] at h1
      have hpair : ∀ q ∈ kept, dedupeSig q ≠ dedupeSig p := by
        intro q hq
        have := (hok q hq).2.2
        intro hcontra
        exact this (hcontra ▸ List.mem_cons_self _ _)
      refine ⟨p :: kept, ?_, hsub.cons₂ p, ?_, ?_, ?_, ?_⟩
      · show dedupeGo L ps (dedupeSig p :: seen) (p :: out) = out.reverse ++ p :: kept
        rw [heq]
        simp
      · intro q hq
        rcases List.mem_cons.1 hq with rfl | hq
        · exact ⟨h1.1, h1.2, by simpa using h2⟩
        · obtain ⟨hqk, hqv, hns⟩ := hok q hq
          exact ⟨hqk, hqv, fun hc => hns (List.mem_cons_of_mem _ hc)⟩
      · simp only [List.map_cons, List.nodup_cons]
        refine ⟨?_, hnodup⟩
        intro hc
        obtain ⟨q, hq, hqe⟩ := List.mem_map.1 hc
        exact hpair q hq hqe
      · intro hlt
        simp only [List.length_cons, Nat.cast_add, Nat.cast_one] at h3 hlen ⊢
        have := hlen (by omega)
        omega
      · intro q hq
        rcases List.mem_cons.1 hq with rfl | hq
        · exact ⟨[], ps, rfl, by simp⟩
        · obtain ⟨pre, post, hps, hpre⟩ := hfirst q hq
          refine ⟨p :: pre, post, by rw [hps, List.cons_append], ?_⟩
          intro p' hp'
          rcases List.mem_cons.1 hp' with h | h
          · rw [h]
            exact fun hc => hpair q hq hc.symm
          · exact hpre p' h

/-- Counterexample for C4 as stated over *every* input list and cap:
(a) with cap 0 the output has length 1 > 0, because the loop's break
fires only after an append; (b) for records whose `normalized_key`
field is empty (the dict fallback then dedupes on `key` instead), two
records with identical `(normalized_key, normalized_value)` can both
be kept. -/
theorem c4_counterexample :
    ¬ (((dedupePairs [mkRawRecord "ab" "ab" "cd" "cd"] 0).length : Int) ≤ 0) ∧
    ¬ ((dedupePairs [mkRawRecord "Xa" "" "Vv" "Vv",
          mkRawRecord "Ya" "" "Vv" "Vv"] 5).map
        (fun p => (strLower p.normalized_key,
          strLower p.normalized_value))).Nodup := by
  constructor
  · have h : (dedupePairs [mkRawRecord "ab" "ab" "cd" "cd"] 0).length = 1 := by
      rfl
    rw [h]
    decide
  · have h : (dedupePairs [mkRawRecord "Xa" "" "Vv" "Vv",
        mkRawRecord "Ya" "" "Vv" "Vv"] 5).map
        (fun p => (strLower p.normalized_key, strLower p.normalized_value)) =
        [("", "vv"), ("", "vv")] := by rfl
    rw [h]
    decide

/-- C4 (amended): for every cap ≥ 1 and every input list of records
whose `normalized_key`/`normalized_value` fields are non-empty and
already whitespace-normalized (as every record built by
`build_pair_record` is), the deduplicated output has length ≤ cap, its
case-insensitively compared `(normalized_key, normalized_value)`
signatures are pairwise distinct, the kept records are an ordered
sublist of the input (insertion order preserved), and each kept record
is the first input record carrying its signature. -/
theorem c4_dedupe_spec (pairs : List PairRecord) (L : Int) (hL : 1 ≤ L)
    (hnorm : ∀ p ∈ pairs, p.normalized_key ≠ "" ∧ p.normalized_value ≠ "" ∧
      normalizeStr p.normalized_key = p.normalized_key ∧
      normalizeStr p.normalized_value = p.normalized_value) :
    ((dedupePairs pairs L).length : Int) ≤ L ∧
    ((dedupePairs pairs L).map
      (fun p => (strLower p.normalized_key,
        strLower p.normalized_value))).Nodup ∧
    (dedupePairs pairs L).Sublist pairs ∧
    (∀ q ∈ dedupePairs pairs L, ∃ pre post, pairs = pre ++ q :: post ∧
      ∀ p ∈ pre, (strLower p.normalized_key, strLower p.normalized_value) ≠
        (strLower q.normalized_key, strLower q.normalized_value)) := by
  have hsig : ∀ p ∈ pairs, dedupeSig p =
      (strLower p.normalized_key, strLower p.normalized_value) := by
    intro p hp
    obtain ⟨hk, hv, hnk, hnv⟩ := hnorm p hp
    unfold dedupeSig dedupeSigKey dedupeSigValue
    rw [if_pos hk, if_pos hv, hnk, hnv]
  obtain ⟨kept, heq, hsub, _, hnodup, hlen, hfirst⟩ :=
    dedupeGo_spec L pairs [] []
  have hout : dedupePairs pairs L = kept := by
    rw [dedupePairs, heq]
    simp
  rw [hout]
  have hkept_sub : ∀ q ∈ kept, q ∈ pairs := fun q hq => hsub.subset hq
  refine ⟨?_, ?_, hsub, ?_⟩
  · have := hlen (by simpa using hL)
    simpa using this
  · have hmap : kept.map (fun p => (strLower p.normalized_key,
        strLower p.normalized_value)) = kept.map dedupeSig := by
      apply List.map_congr_left
      intro q hq
      exact (hsig q (hkept_sub q hq)).symm
    rw [hmap]
    exact hnodup
  · intro q hq
    obtain ⟨pre, post, hps, hpre⟩ := hfirst q hq
    refine ⟨pre, post, hps, ?_⟩
    intro p hp
    have hp_mem : p ∈ pairs := by
      rw [hps]
      exact List.mem_append_left _ hp
    rw [← hsig p hp_mem, ← hsig q (hkept_sub q hq)]
    exact hpre p hp

/-- Witness for C4 at a concrete duplicate-bearing input. -/
theorem c4_dedupe_spec_witness :
    ((dedupePairs [recAbCd, recAbCd] 100).length : Int) ≤ 100 ∧
    ((dedupePairs [recAbCd, recAbCd] 100).map
      (fun p => (strLower p.normalized_key,
        strLower p.normalized_value))).Nodup ∧
    (dedupePairs [recAbCd, recAbCd] 100).Sublist [recAbCd, recAbCd] := by
  have h := c4_dedupe_spec [recAbCd, recAbCd] 100 (by norm_num) (by decide)
  exact ⟨h.1, h.2.1, h.2.2.1⟩

/-- When every attempted backend raises, the attempt loop yields no
extraction. -/
theorem attemptLoop_all_fail (run : String → Except String Extraction)
    (hfail : ∀ b, ∃ m, run b = Except.error m) :
    ∀ (l : List String) (err : String), (attemptLoop run l err).1 = none := by
  intro l
  induction l with
  | nil => intro err; rfl
  | cons b rest ih =>
    intro err
    rw [attemptLoop]
    split_ifs with hb
    · obtain ⟨m, hm⟩ := hfail b
      rw [hm]
      exact ih m
    · exact ih err

/-- Counterexample for C1: with no backend available (the pipeline's
actual total-failure situation), the envelope has `ok = false`, not
`ok = true` — `main` writes `"ok": False` in the total-failure payload. -/
theorem c1_counterexample :
    (mainModel defaultArgs noAvail noOcrAvail (fun _ => Except.error "x")
      (fun _ => Except.error "y") (Except.error "z")).1.ok = false ∧
    (mainModel defaultArgs noAvail noOcrAvail (fun _ => Except.error "x")
      (fun _ => Except.error "y") (Except.error "z")).1.error =
      some "no_pdf_backend_available" ∧
    (mainModel defaultArgs noAvail noOcrAvail (fun _ => Except.error "x")
      (fun _ => Except.error "y") (Except.error "z")).1.pairs = [] := by
  refine ⟨?_, ?_, ?_⟩ <;> rfl


/-- The total-failure payload always carries a non-empty error string
(the last failure message, or the `no_pdf_backend_available` default). -/
theorem failurePayload_error_spec (requested_backend : String)
    (attempts : List String) (available : Avail) (fingerprint : Fingerprint)
    (enable_scanned_ocr : Bool) (requested_scanned_ocr_backend : String)
    (extraction_error : String) (fingerprint_errors : List String) :
    ∃ e, (failurePayload requested_backend attempts available fingerprint
        enable_scanned_ocr requested_scanned_ocr_backend extraction_error
        fingerprint_errors).error = some e ∧ e ≠ "" := by
  by_cases h : extraction_error = ""
  · subst h
    exact ⟨"no_pdf_backend_available", by simp [failurePayload], by decide⟩
  · exact ⟨extraction_error, by simp [failurePayload, h], h⟩

/-- C1 (amended): if every backend extraction attempt fails (or no
extraction backend is available), the pipeline still returns an
envelope — with `ok = false`, empty pair collections, and a descriptive
non-empty error string — and exits with code 0; failure is data, never
an unhandled exception (the model is a total function into
`Envelope × Int`). -/
theorem c1_total_failure_spec (args : MainArgs) (available : Avail)
    (available_ocr : OcrAvail) (fpRun : String → Except String Fingerprint)
    (run : String → Except String Extraction)
    (ocrRun : Except String OcrExtraction)
    (hfail : ∀ b, ∃ m, run b = Except.error m) :
    (mainModel args available available_ocr fpRun run ocrRun).1.ok = false ∧
    (mainModel args available available_ocr fpRun run ocrRun).1.pairs = [] ∧
    (mainModel args available available_ocr fpRun run ocrRun).1.kv_pairs = [] ∧
    (mainModel args available available_ocr fpRun run ocrRun).1.table_pairs = [] ∧
    (mainModel args available available_ocr fpRun run ocrRun).1.ocr_pairs = [] ∧
    (∃ e, (mainModel args available available_ocr fpRun run ocrRun).1.error =
      some e ∧ e ≠ "") ∧
    (mainModel args available available_ocr fpRun run ocrRun).2 = 0 := by
  have hpair : ∀ atts : List String,
      attemptLoop run atts "" = (none, (attemptLoop run atts "").2) := by
    intro atts
    have h1 := attemptLoop_all_fail run hfail atts ""
    exact Prod.ext h1 rfl
  have hmain : mainModel args available available_ocr fpRun run ocrRun =
      (failurePayload (normalizeBackend args.backend)
        (mainAttempts args available fpRun) available
        (fingerprintStage available fpRun).1
        (parseBoolToken (some args.enable_scanned_ocr) false)
        (normalizeOcrBackend args.scanned_ocr_backend)
        (attemptLoop run (mainAttempts args available fpRun) "").2
        (fingerprintStage available fpRun).2, 0) := by
    unfold mainModel
    rw [hpair (mainAttempts args available fpRun)]
  rw [hmain]
  exact ⟨rfl, rfl, rfl, rfl, rfl, failurePayload_error_spec _ _ _ _ _ _ _ _, rfl⟩

/-- Witness for C1: pdfplumber importable but raising on every attempt. -/
theorem c1_total_failure_spec_witness :
    (mainModel defaultArgs onlyPdfplumber noOcrAvail
      (fun _ => Except.error "open_failed") (fun _ => Except.error "boom")
      (Except.error "z")).1.ok = false ∧
    (mainModel defaultArgs onlyPdfplumber noOcrAvail
      (fun _ => Except.error "open_failed") (fun _ => Except.error "boom")
      (Except.error "z")).1.pairs = [] ∧
    (mainModel defaultArgs onlyPdfplumber noOcrAvail
      (fun _ => Except.error "open_failed") (fun _ => Except.error "boom")
      (Except.error "z")).1.kv_pairs = [] ∧
    (mainModel defaultArgs onlyPdfplumber noOcrAvail
      (fun _ => Except.error "open_failed") (fun _ => Except.error "boom")
      (Except.error "z")).1.table_pairs = [] ∧
    (mainModel defaultArgs onlyPdfplumber noOcrAvail
      (fun _ => Except.error "open_failed") (fun _ => Except.error "boom")
      (Except.error "z")).1.ocr_pairs = [] ∧
    (∃ e, (mainModel defaultArgs onlyPdfplumber noOcrAvail
      (fun _ => Except.error "open_failed") (fun _ => Except.error "boom")
      (Except.error "z")).1.error = some e ∧ e ≠ "") ∧
    (mainModel defaultArgs onlyPdfplumber noOcrAvail
      (fun _ => Except.error "open_failed") (fun _ => Except.error "boom")
      (Except.error "z")).2 = 0 :=
  c1_total_failure_spec defaultArgs onlyPdfplumber noOcrAvail
    (fun _ => Except.error "open_failed") (fun _ => Except.error "boom")
    (Except.error "z") (fun _ => ⟨"boom", rfl⟩)

/-- Whenever the OCR block records a failure, it produced no OCR pairs
and no preview. -/
theorem ocrBlock_error_empty (enable_scanned_ocr scanned_pdf_detected : Bool)
    (choice : OcrChoice) (available_ocr : OcrAvail)
    (scanned_ocr_max_pairs max_text_preview_chars : Int)
    (ocrRun : Except String OcrExtraction)
    (herr : (ocrBlock enable_scanned_ocr scanned_pdf_detected choice
      available_ocr scanned_ocr_max_pairs max_text_preview_chars
      ocrRun).error ≠ "") :
    (ocrBlock enable_scanned_ocr scanned_pdf_detected choice available_ocr
      scanned_ocr_max_pairs max_text_preview_chars ocrRun).pairs = [] ∧
    (ocrBlock enable_scanned_ocr scanned_pdf_detected choice available_ocr
      scanned_ocr_max_pairs max_text_preview_chars ocrRun).kv_pairs = [] ∧
    (ocrBlock enable_scanned_ocr scanned_pdf_detected choice available_ocr
      scanned_ocr_max_pairs max_text_preview_chars ocrRun).table_pairs = [] ∧
    (ocrBlock enable_scanned_ocr scanned_pdf_detected choice available_ocr
      scanned_ocr_max_pairs max_text_preview_chars ocrRun).text_preview = "" := by
  have hsub : (ocrSubstitution choice available_ocr).1 = "tesseract" →
      (ocrSubstitution choice available_ocr).2.2.2 = "" := by
    unfold ocrSubstitution
    split_ifs with hp ht <;> intro hsel <;> first | rfl | skip
    · simp only at hsel
      exact absurd (hsel ▸ hp) (by decide)
  unfold ocrBlock at herr ⊢
  by_cases h1 : (enable_scanned_ocr && scanned_pdf_detected) = true
  case neg =>
    rw [if_neg h1] at herr
    exact absurd rfl herr
  rw [if_pos h1] at herr ⊢
  by_cases h2 : (ocrSubstitution choice available_ocr).1 = "none"
  case pos =>
    rw [if_pos h2] at herr ⊢
    exact ⟨rfl, rfl, rfl, rfl⟩
  rw [if_neg h2] at herr ⊢
  by_cases h3 : (ocrSubstitution choice available_ocr).1 = "tesseract"
  case neg =>
    rw [if_neg h3] at herr ⊢
    exact ⟨rfl, rfl, rfl, rfl⟩
  rw [if_pos h3] at herr ⊢
  cases hrun : ocrRun with
  | ok oe =>
    rw [hrun] at herr
    simp only at herr
    exact absurd (hsub h3) herr
  | error m =>
    exact ⟨rfl, rfl, rfl, rfl⟩

/-- C9: if the OCR path fails (backend unavailable, unimplemented, or
the OCR extraction raises — precisely when a non-empty
`scanned_pdf_ocr_error` is recorded), the primary-path deduplicated
records and their kv/table splits in the final envelope are exactly
those of the same run with OCR not attempted (`enable = false`); the
OCR collections stay empty, and the failure surfaces only as the
appended `scanned_pdf_ocr:` error string. -/
theorem c9_ocr_isolation (requested_backend : String)
    (choice : BackendChoice) (attempts : List String) (available : Avail)
    (selected_backend used_backend : String) (extraction_error : String)
    (extraction : Extraction) (fingerprint : Fingerprint)
    (max_pairs max_text_preview_chars : Int) (enable_scanned_ocr : Bool)
    (requested_scanned_ocr_backend : String) (available_ocr : OcrAvail)
    (scanned_ocr_max_pairs : Int)
    (scanned_ocr_min_chars_per_page scanned_ocr_min_lines_per_page : Int)
    (ocrRun : Except String OcrExtraction) (fingerprint_errors : List String)
    (herr : (successPayload requested_backend choice attempts available
        selected_backend used_backend extraction_error extraction fingerprint
        max_pairs max_text_preview_chars enable_scanned_ocr
        requested_scanned_ocr_backend available_ocr scanned_ocr_max_pairs
        scanned_ocr_min_chars_per_page scanned_ocr_min_lines_per_page
        ocrRun fingerprint_errors).meta.scanned_pdf_ocr_error ≠ "") :
    (successPayload requested_backend choice attempts available
        selected_backend used_backend extraction_error extraction fingerprint
        max_pairs max_text_preview_chars enable_scanned_ocr
        requested_scanned_ocr_backend available_ocr scanned_ocr_max_pairs
        scanned_ocr_min_chars_per_page scanned_ocr_min_lines_per_page
        ocrRun fingerprint_errors).pairs =
      dedupePairs extraction.pairs max_pairs ∧
    (successPayload requested_backend choice attempts available
        selected_backend used_backend extraction_error extraction fingerprint
        max_pairs max_text_preview_chars enable_scanned_ocr
        requested_scanned_ocr_backend available_ocr scanned_ocr_max_pairs
        scanned_ocr_min_chars_per_page scanned_ocr_min_lines_per_page
        ocrRun fingerprint_errors).pairs =
      (successPayload requested_backend choice attempts available
        selected_backend used_backend extraction_error extraction fingerprint
        max_pairs max_text_preview_chars false
        requested_scanned_ocr_backend available_ocr scanned_ocr_max_pairs
        scanned_ocr_min_chars_per_page scanned_ocr_min_lines_per_page
        ocrRun fingerprint_errors).pairs ∧
    (successPayload requested_backend choice attempts available
        selected_backend used_backend extraction_error extraction fingerprint
        max_pairs max_text_preview_chars enable_scanned_ocr
        requested_scanned_ocr_backend available_ocr scanned_ocr_max_pairs
        scanned_ocr_min_chars_per_page scanned_ocr_min_lines_per_page
        ocrRun fingerprint_errors).kv_pairs =
      (successPayload requested_backend choice attempts available
        selected_backend used_backend extraction_error extraction fingerprint
        max_pairs max_text_preview_chars false
        requested_scanned_ocr_backend available_ocr scanned_ocr_max_pairs
        scanned_ocr_min_chars_per_page scanned_ocr_min_lines_per_page
        ocrRun fingerprint_errors).kv_pairs ∧
    (successPayload requested_backend choice attempts available
        selected_backend used_backend extraction_error extraction fingerprint
        max_pairs max_text_preview_chars enable_scanned_ocr
        requested_scanned_ocr_backend available_ocr scanned_ocr_max_pairs
        scanned_ocr_min_chars_per_page scanned_ocr_min_lines_per_page
        ocrRun fingerprint_errors).table_pairs =
      (successPayload requested_backend choice attempts available
        selected_backend used_backend extraction_error extraction fingerprint
        max_pairs max_text_preview_chars false
        requested_scanned_ocr_backend available_ocr scanned_ocr_max_pairs
        scanned_ocr_min_chars_per_page scanned_ocr_min_lines_per_page
        ocrRun fingerprint_errors).table_pairs ∧
    (successPayload requested_backend choice attempts available
        selected_backend used_backend extraction_error extraction fingerprint
        max_pairs max_text_preview_chars enable_scanned_ocr
        requested_scanned_ocr_backend available_ocr scanned_ocr_max_pairs
        scanned_ocr_min_chars_per_page scanned_ocr_min_lines_per_page
        ocrRun fingerprint_errors).ocr_pairs = [] ∧
    (successPayload requested_backend choice attempts available
        selected_backend used_backend extraction_error extraction fingerprint
        max_pairs max_text_preview_chars enable_scanned_ocr
        requested_scanned_ocr_backend available_ocr scanned_ocr_max_pairs
        scanned_ocr_min_chars_per_page scanned_ocr_min_lines_per_page
        ocrRun fingerprint_errors).ocr_kv_pairs = [] ∧
    (successPayload requested_backend choice attempts available
        selected_backend used_backend extraction_error extraction fingerprint
        max_pairs max_text_preview_chars enable_scanned_ocr
        requested_scanned_ocr_backend available_ocr scanned_ocr_max_pairs
        scanned_ocr_min_chars_per_page scanned_ocr_min_lines_per_page
        ocrRun fingerprint_errors).ocr_table_pairs = [] ∧
    (successPayload requested_backend choice attempts available
        selected_backend used_backend extraction_error extraction fingerprint
        max_pairs max_text_preview_chars enable_scanned_ocr
        requested_scanned_ocr_backend available_ocr scanned_ocr_max_pairs
        scanned_ocr_min_chars_per_page scanned_ocr_min_lines_per_page
        ocrRun fingerprint_errors).ocr_text_preview = "" ∧
    (successPayload requested_backend choice attempts available
        selected_backend used_backend extraction_error extraction fingerprint
        max_pairs max_text_preview_chars enable_scanned_ocr
        requested_scanned_ocr_backend available_ocr scanned_ocr_max_pairs
        scanned_ocr_min_chars_per_page scanned_ocr_min_lines_per_page
        ocrRun fingerprint_errors).errors =
      (successPayload requested_backend choice attempts available
        selected_backend used_backend extraction_error extraction fingerprint
        max_pairs max_text_preview_chars false
        requested_scanned_ocr_backend available_ocr scanned_ocr_max_pairs
        scanned_ocr_min_chars_per_page scanned_ocr_min_lines_per_page
        ocrRun fingerprint_errors).errors ++
      ["scanned_pdf_ocr:" ++ (successPayload requested_backend choice attempts
        available selected_backend used_backend extraction_error extraction
        fingerprint max_pairs max_text_preview_chars enable_scanned_ocr
        requested_scanned_ocr_backend available_ocr scanned_ocr_max_pairs
        scanned_ocr_min_chars_per_page scanned_ocr_min_lines_per_page
        ocrRun fingerprint_errors).meta.scanned_pdf_ocr_error] := by
  have herr' : (ocrBlock enable_scanned_ocr
      (shouldRouteToScannedOcr fingerprint
        ((dedupePairs extraction.pairs max_pairs).length : Int)
        scanned_ocr_min_chars_per_page
        scanned_ocr_min_lines_per_page).scanned_pdf_detected
      (chooseOcrBackend requested_scanned_ocr_backend available_ocr)
      available_ocr scanned_ocr_max_pairs max_text_preview_chars
      ocrRun).error ≠ "" := herr
  obtain ⟨hp, hkv, htb, hpv⟩ := ocrBlock_error_empty _ _ _ _ _ _ _ herr'
  refine ⟨rfl, rfl, rfl, rfl, hp, hkv, htb, hpv, ?_⟩
  show (fingerprint_errors ++
      (if extraction_error ≠ "" then [extraction_error] else [])) ++
      (if (ocrBlock enable_scanned_ocr _ _ _ _ _ ocrRun).error ≠ "" then
        ["scanned_pdf_ocr:" ++ (ocrBlock enable_scanned_ocr _ _ _ _ _
          ocrRun).error] else []) = _
  rw [if_pos herr']
  have hfalse : (ocrBlock false
      (shouldRouteToScannedOcr fingerprint
        ((dedupePairs extraction.pairs max_pairs).length : Int)
        scanned_ocr_min_chars_per_page
        scanned_ocr_min_lines_per_page).scanned_pdf_detected
      (chooseOcrBackend requested_scanned_ocr_backend available_ocr)
      available_ocr scanned_ocr_max_pairs max_text_preview_chars
      ocrRun).error = "" := rfl
  show _ = ((fingerprint_errors ++
      (if extraction_error ≠ "" then [extraction_error] else [])) ++
      (if (ocrBlock false _ _ _ _ _ ocrRun).error ≠ "" then
        ["scanned_pdf_ocr:" ++ (ocrBlock false _ _ _ _ _ ocrRun).error]
       else [])) ++ _
  rw [hfalse]
  simp
  rfl

/-- Witness for C9: an empty-extraction run with OCR enabled, scanned
detection firing, and no OCR backend available fails the OCR path but
keeps the primary fields identical to the OCR-disabled run. -/
theorem c9_ocr_isolation_witness :
    (successPayload "auto" (chooseBackend "auto" onlyPdfplumber zeroFingerprint)
        ["pdfplumber"] onlyPdfplumber "pdfplumber" "pdfplumber" ""
        emptyExtraction zeroFingerprint 5000 20000 true "auto" noOcrAvail
        1200 45 3 (Except.error "z") []).ocr_pairs = [] ∧
    (successPayload "auto" (chooseBackend "auto" onlyPdfplumber zeroFingerprint)
        ["pdfplumber"] onlyPdfplumber "pdfplumber" "pdfplumber" ""
        emptyExtraction zeroFingerprint 5000 20000 true "auto" noOcrAvail
        1200 45 3 (Except.error "z") []).pairs =
      (successPayload "auto" (chooseBackend "auto" onlyPdfplumber zeroFingerprint)
        ["pdfplumber"] onlyPdfplumber "pdfplumber" "pdfplumber" ""
        emptyExtraction zeroFingerprint 5000 20000 false "auto" noOcrAvail
        1200 45 3 (Except.error "z") []).pairs := by
  have h := c9_ocr_isolation "auto"
    (chooseBackend "auto" onlyPdfplumber zeroFingerprint) ["pdfplumber"]
    onlyPdfplumber "pdfplumber" "pdfplumber" "" emptyExtraction
    zeroFingerprint 5000 20000 true "auto" noOcrAvail 1200 45 3
    (Except.error "z") [] (by decide)
  exact ⟨h.2.2.2.2.1, h.2.1⟩

/-- Counterexample for C8: the early-stop bound is only consulted after
a table (and после each page), so with `max_pairs = 1` three one-pair
pages, the last carrying a table, accumulate 4 raw pairs — one full
table beyond the `3 * max_pairs` bound at which the claim says the loop
already stops ("no further pages or tables"); the claimed
stop-as-soon-as-reached loop accumulates only 3.  Moreover
`extract_pdf_any.py`'s pdfplumber pass stops at `2 * max_pairs`: on
three one-pair pages it accumulates 2, where a `3 * max_pairs` loop
would accumulate 3. -/
theorem c8_counterexample :
    (extractWithPdfplumber [pageKv1, pageKv2, pageKv3WithTable] 10 1
      1000).meta.pairs_before_dedupe = 4 ∧
    claimedRawPairCount [pageKv1, pageKv2, pageKv3WithTable] 10 1 = 3 ∧
    1 * 3 <
      ((extractWithPdfplumber [pageKv1, pageKv2, pageKv3WithTable] 10 1
        1000).meta.pairs_before_dedupe : Int) ∧
    (anyRawPairs [pageKv1, pageKv2, pageKv3] 10 1).length = 2 ∧
    (claimedAnyRawPairs3 [pageKv1, pageKv2, pageKv3] 10 1).length = 3 := by
  refine ⟨rfl, rfl, by decide, rfl, rfl⟩

/-- C8 (amended): in `extract_pdf_kv.py`'s pdfplumber pass the
accumulation loop checks `len(all_pairs) >= max_pairs * 3` after each
table and after each page's tables: once a check fires, no further
tables of that page and no later pages are processed (the rest of the
table list and the rest of the page list are irrelevant to the result);
the current page's free-text extraction and the table during which the
bound is crossed still complete, and `extract_pdf_any.py` uses
`max_pairs * 2` instead. -/
theorem c8_early_stop_spec :
    (∀ (max_pairs : Int) (p : Page) (rest : List Page) (st : PState),
      max_pairs * 3 ≤ ((processPage max_pairs p st).allPairs.length : Int) →
      pagesLoop max_pairs (p :: rest) st = processPage max_pairs p st) ∧
    (∀ (max_pairs page_number : Int) (t : TableGrid)
        (rest : List TableGrid) (table_index : Nat) (st : PState),
      max_pairs * 3 ≤
        ((tableStep max_pairs page_number table_index t st).allPairs.length : Int) →
      tablesLoop max_pairs page_number (t :: rest) table_index st =
        tableStep max_pairs page_number table_index t st) ∧
    (∀ (max_pairs : Int) (p : Page) (rest : List Page)
        (acc : List (String × String)),
      max_pairs * 2 ≤ ((anyPageStep max_pairs p acc).length : Int) →
      anyPagesLoop max_pairs (p :: rest) acc = anyPageStep max_pairs p acc) := by
  refine ⟨?_, ?_, ?_⟩
  · intro max_pairs p rest st h
    simp only [pagesLoop]
    rw [if_pos h]
  · intro max_pairs page_number t rest table_index st h
    simp only [tablesLoop]
    rw [if_pos h]
  · intro max_pairs p rest acc h
    simp only [anyPagesLoop]
    rw [if_pos h]

/-- Witness for C8's quantified parts at concrete states where the
bound has just been reached. -/
theorem c8_early_stop_spec_witness :
    pagesLoop 1 [pageTwoTables, pageKv2] initPState =
      processPage 1 pageTwoTables initPState ∧
    tablesLoop 1 1 [tableEfGh, tableEfGh] 0 stTwoPairs =
      tableStep 1 1 0 tableEfGh stTwoPairs ∧
    anyPagesLoop 1 [pageKv1, pageKv2] [("ab", "cd")] =
      anyPageStep 1 pageKv1 [("ab", "cd")] := by
  refine ⟨?_, ?_, ?_⟩
  · exact c8_early_stop_spec.1 1 pageTwoTables [pageKv2] initPState (by decide)
  · exact c8_early_stop_spec.2.1 1 1 tableEfGh [tableEfGh] 0 stTwoPairs
      (by decide)
  · exact c8_early_stop_spec.2.2 1 pageKv1 [pageKv2] [("ab", "cd")] (by decide)

theorem digitChar_isDigit (d : Nat) (h : d < 10) :
    (digitChar d).isDigit = true := by
  interval_cases d <;> decide

theorem digitChar_toNat (d : Nat) (h : d < 10) :
    (digitChar d).toNat = 48 + d := by
  interval_cases d <;> decide

theorem natDigits_all_digits : ∀ n, ∀ c ∈ natDigits n, c.isDigit = true := by
  intro n
  induction n using Nat.strong_induction_on with
  | _ n ih =>
    rw [natDigits]
    split_ifs with h
    · intro c hc
      simp only [List.mem_singleton] at hc
      subst hc
      exact digitChar_isDigit n h
    · intro c hc
      rw [List.mem_append] at hc
      rcases hc with hc | hc
      · exact ih (n / 10) (Nat.div_lt_self (by omega) (by omega)) c hc
      · simp only [List.mem_singleton] at hc
        subst hc
        exact digitChar_isDigit (n % 10) (Nat.mod_lt _ (by omega))

theorem natOfDigits_append_singleton (l : List Char) (c : Char) :
    natOfDigits (l ++ [c]) = 10 * natOfDigits l + (c.toNat - 48) := by
  unfold natOfDigits
  rw [List.foldl_append]
  rfl

theorem natOfDigits_natDigits : ∀ n, natOfDigits (natDigits n) = n := by
  intro n
  induction n using Nat.strong_induction_on with
  | _ n ih =>
    rw [natDigits]
    split_ifs with h
    · show natOfDigits [digitChar n] = n
      unfold natOfDigits
      simp only [List.foldl_cons, List.foldl_nil]
      rw [digitChar_toNat n h]
      omega
    · rw [natOfDigits_append_singleton]
      rw [ih (n / 10) (Nat.div_lt_self (by omega) (by omega))]
      rw [digitChar_toNat (n % 10) (Nat.mod_lt _ (by omega))]
      omega

theorem natOfDigits_replicate (k : Nat) (l : List Char) :
    natOfDigits (List.replicate k '0' ++ l) = natOfDigits l := by
  induction k with
  | zero => simp
  | succ k ih =>
    rw [List.replicate_succ, List.cons_append]
    exact ih

theorem padDigits_all_digits (w n : Nat) :
    ∀ c ∈ padDigits w n, c.isDigit = true := by
  intro c hc
  unfold padDigits at hc
  rw [List.mem_append] at hc
  rcases hc with hc | hc
  · rw [List.eq_of_mem_replicate hc]; decide
  · exact natDigits_all_digits n c hc

theorem natOfDigits_padDigits (w n : Nat) :
    natOfDigits (padDigits w n) = n := by
  unfold padDigits
  rw [natOfDigits_replicate, natOfDigits_natDigits]

theorem padDigits_inj (w a b : Nat) (h : padDigits w a = padDigits w b) :
    a = b := by
  have := congrArg natOfDigits h
  rwa [natOfDigits_padDigits, natOfDigits_padDigits] at this

theorem takeWhile_append_of_all (p : Char → Bool) :
    ∀ (a : List Char) (x : Char) (t : List Char),
      (∀ c ∈ a, p c = true) → p x = false →
      (a ++ x :: t).takeWhile p = a := by
  intro a
  induction a with
  | nil =>
    intro x t _ hx
    simp [List.takeWhile_cons, hx]
  | cons c a ih =>
    intro x t hall hx
    rw [List.cons_append, List.takeWhile_cons]
    rw [hall c (List.mem_cons_self _ _)]
    rw [ih x t (fun y hy => hall y (List.mem_cons_of_mem _ hy)) hx]
    simp

theorem digits_append_cancel :
    ∀ (a b s t : List Char),
      (∀ c ∈ a, c.isDigit = true) → (∀ c ∈ b, c.isDigit = true) →
      (∀ c, s.head? = some c → c.isDigit = false) →
      (∀ c, t.head? = some c → c.isDigit = false) →
      a ++ s = b ++ t → a = b ∧ s = t := by
  intro a
  induction a with
  | nil =>
    intro b s t _ hb hs _ heq
    cases b with
    | nil => exact ⟨rfl, by simpa using heq⟩
    | cons c b' =>
      exfalso
      simp only [List.nil_append, List.cons_append] at heq
      have h1 : s.head? = some c := by rw [heq]; rfl
      have h2 := hs c h1
      have h3 := hb c (List.mem_cons_self _ _)
      rw [h3] at h2
      cases h2
  | cons c a' ih =>
    intro b s t ha hb hs ht heq
    cases b with
    | nil =>
      exfalso
      simp only [List.cons_append, List.nil_append] at heq
      have h1 : t.head? = some c := by rw [← heq]; rfl
      have h2 := ht c h1
      have h3 := ha c (List.mem_cons_self _ _)
      rw [h3] at h2
      cases h2
    | cons d b' =>
      simp only [List.cons_append, List.cons.injEq] at heq
      obtain ⟨hcd, heq'⟩ := heq
      obtain ⟨hab, hst⟩ := ih b' s t
        (fun y hy => ha y (List.mem_cons_of_mem _ hy))
        (fun y hy => hb y (List.mem_cons_of_mem _ hy)) hs ht heq'
      exact ⟨by rw [hcd, hab], hst⟩

theorem rowIdFor_kv_eq (p i : Nat) :
    rowIdFor "pdf_kv" p i =
      ⟨"pdf_".data ++ padDigits 2 p ++ ".kv_".data ++ padDigits 4 i⟩ := by
  unfold rowIdFor
  rw [if_neg (by decide), if_neg (by decide), if_neg (by decide)]

theorem rowIdFor_tr_eq (p i : Nat) :
    rowIdFor "pdf_table" p i =
      ⟨"pdf_".data ++ padDigits 2 p ++ ".tr_".data ++ padDigits 4 i⟩ := by
  unfold rowIdFor
  rw [if_pos rfl]

theorem rowCounter_generic (pre : List Char) (w i : Nat) :
    rowCounterOfStr ⟨pre ++ '_' :: padDigits w i⟩ = i := by
  unfold rowCounterOfStr
  show natOfDigits
    ((((pre ++ '_' :: padDigits w i)).reverse.takeWhile Char.isDigit).reverse) = i
  rw [List.reverse_append, List.reverse_cons, List.append_assoc,
    List.singleton_append]
  rw [takeWhile_append_of_all Char.isDigit (padDigits w i).reverse '_'
    (pre.reverse)
    (fun c hc => padDigits_all_digits w i c (List.mem_reverse.1 hc))
    (by decide)]
  rw [List.reverse_reverse, natOfDigits_padDigits]

theorem rowCounter_rowIdFor_kv (p i : Nat) :
    rowCounterOfStr (rowIdFor "pdf_kv" p i) = i := by
  rw [rowIdFor_kv_eq]
  rw [List.append_assoc ("pdf_".data ++ padDigits 2 p) ".kv_".data
    (padDigits 4 i)]
  rw [show (".kv_".data ++ padDigits 4 i : List Char) =
    ['.', 'k', 'v'] ++ '_' :: padDigits 4 i from rfl]
  rw [← List.append_assoc]
  exact rowCounter_generic _ 4 i

theorem rowCounter_rowIdFor_tr (p i : Nat) :
    rowCounterOfStr (rowIdFor "pdf_table" p i) = i := by
  rw [rowIdFor_tr_eq]
  rw [List.append_assoc ("pdf_".data ++ padDigits 2 p) ".tr_".data
    (padDigits 4 i)]
  rw [show (".tr_".data ++ padDigits 4 i : List Char) =
    ['.', 't', 'r'] ++ '_' :: padDigits 4 i from rfl]
  rw [← List.append_assoc]
  exact rowCounter_generic _ 4 i

theorem rowIdFor_primary_inj (s1 s2 : String) (p1 i1 p2 i2 : Nat)
    (h1 : s1 = "pdf_kv" ∨ s1 = "pdf_table")
    (h2 : s2 = "pdf_kv" ∨ s2 = "pdf_table")
    (heq : rowIdFor s1 p1 i1 = rowIdFor s2 p2 i2) :
    s1 = s2 ∧ p1 = p2 ∧ i1 = i2 := by
  have hkv_head : ∀ (i : Nat) (c : Char),
      (".kv_".data ++ padDigits 4 i).head? = some c → c.isDigit = false := by
    intro i c hc
    rw [show ((".kv_".data ++ padDigits 4 i).head?) = some '.' from rfl] at hc
    simp only [Option.some.injEq] at hc
    subst hc
    decide
  have htr_head : ∀ (i : Nat) (c : Char),
      (".tr_".data ++ padDigits 4 i).head? = some c → c.isDigit = false := by
    intro i c hc
    rw [show ((".tr_".data ++ padDigits 4 i).head?) = some '.' from rfl] at hc
    simp only [Option.some.injEq] at hc
    subst hc
    decide
  rcases h1 with rfl | rfl <;> rcases h2 with rfl | rfl
  · rw [rowIdFor_kv_eq, rowIdFor_kv_eq] at heq
    have heqd : "pdf_".data ++ padDigits 2 p1 ++ ".kv_".data ++ padDigits 4 i1 =
        "pdf_".data ++ padDigits 2 p2 ++ ".kv_".data ++ padDigits 4 i2 :=
      congrArg String.data heq
    simp only [List.append_assoc] at heqd
    have heq2 := List.append_cancel_left heqd
    obtain ⟨hpp, hkd⟩ := digits_append_cancel (padDigits 2 p1) (padDigits 2 p2)
      _ _ (padDigits_all_digits 2 p1) (padDigits_all_digits 2 p2)
      (hkv_head i1) (hkv_head i2) heq2
    have hdd := List.append_cancel_left hkd
    exact ⟨rfl, padDigits_inj 2 p1 p2 hpp, padDigits_inj 4 i1 i2 hdd⟩
  · exfalso
    rw [rowIdFor_kv_eq, rowIdFor_tr_eq] at heq
    have heqd : "pdf_".data ++ padDigits 2 p1 ++ ".kv_".data ++ padDigits 4 i1 =
        "pdf_".data ++ padDigits 2 p2 ++ ".tr_".data ++ padDigits 4 i2 :=
      congrArg String.data heq
    simp only [List.append_assoc] at heqd
    have heq2 := List.append_cancel_left heqd
    obtain ⟨hpp, hkd⟩ := digits_append_cancel (padDigits 2 p1) (padDigits 2 p2)
      _ _ (padDigits_all_digits 2 p1) (padDigits_all_digits 2 p2)
      (hkv_head i1) (htr_head i2) heq2
    have hcontra : ('.' :: 'k' :: 'v' :: '_' :: padDigits 4 i1 : List Char) =
        '.' :: 't' :: 'r' :: '_' :: padDigits 4 i2 := hkd
    simp at hcontra
  · exfalso
    rw [rowIdFor_tr_eq, rowIdFor_kv_eq] at heq
    have heqd : "pdf_".data ++ padDigits 2 p1 ++ ".tr_".data ++ padDigits 4 i1 =
        "pdf_".data ++ padDigits 2 p2 ++ ".kv_".data ++ padDigits 4 i2 :=
      congrArg String.data heq
    simp only [List.append_assoc] at heqd
    have heq2 := List.append_cancel_left heqd
    obtain ⟨hpp, hkd⟩ := digits_append_cancel (padDigits 2 p1) (padDigits 2 p2)
      _ _ (padDigits_all_digits 2 p1) (padDigits_all_digits 2 p2)
      (htr_head i1) (hkv_head i2) heq2
    have hcontra : ('.' :: 't' :: 'r' :: '_' :: padDigits 4 i1 : List Char) =
        '.' :: 'k' :: 'v' :: '_' :: padDigits 4 i2 := hkd
    simp at hcontra
  · rw [rowIdFor_tr_eq, rowIdFor_tr_eq] at heq
    have heqd : "pdf_".data ++ padDigits 2 p1 ++ ".tr_".data ++ padDigits 4 i1 =
        "pdf_".data ++ padDigits 2 p2 ++ ".tr_".data ++ padDigits 4 i2 :=
      congrArg String.data heq
    simp only [List.append_assoc] at heqd
    have heq2 := List.append_cancel_left heqd
    obtain ⟨hpp, hkd⟩ := digits_append_cancel (padDigits 2 p1) (padDigits 2 p2)
      _ _ (padDigits_all_digits 2 p1) (padDigits_all_digits 2 p2)
      (htr_head i1) (htr_head i2) heq2
    have hdd := List.append_cancel_left hkd
    exact ⟨rfl, padDigits_inj 2 p1 p2 hpp, padDigits_inj 4 i1 i2 hdd⟩

theorem buildPairRecord_kv_shape (key value : String) (page_number : Int)
    (backend : String) (r : Int) (oc : Option ℚ) (olc : Bool) (hr : 1 ≤ r) :
    (buildPairRecord key value page_number "pdf_kv" backend r "" "" "" none
      oc olc).surface = "pdf_kv" ∧
    (buildPairRecord key value page_number "pdf_kv" backend r "" "" "" none
      oc olc).row_id = rowIdFor "pdf_kv"
        ((max 1 (if page_number = 0 then 1 else page_number)).toNat) r.toNat ∧
    rowCounterOf (buildPairRecord key value page_number "pdf_kv" backend r ""
      "" "" none oc olc) = r.toNat ∧
    1 ≤ r.toNat ∧ (r.toNat : Int) = r := by
  have hst : surfaceTokenOf "pdf_kv" = "pdf_kv" := by decide
  have hrow : max 1 (if r = 0 then 1 else r) = r := by
    rw [if_neg (by omega)]
    omega
  refine ⟨?_, ?_, ?_, by omega, by omega⟩
  · simp [buildPairRecord, hst]
  · simp [buildPairRecord, hst, hrow]
  · show rowCounterOfStr (buildPairRecord key value page_number "pdf_kv"
      backend r "" "" "" none oc olc).row_id = r.toNat
    have h2 : (buildPairRecord key value page_number "pdf_kv" backend r "" ""
        "" none oc olc).row_id = rowIdFor "pdf_kv"
        ((max 1 (if page_number = 0 then 1 else page_number)).toNat) r.toNat := by
      simp [buildPairRecord, hst, hrow]
    rw [h2]
    exact rowCounter_rowIdFor_kv _ _

theorem buildPairRecord_tr_shape (key value : String) (page_number : Int)
    (backend table_id : String) (r : Int) (oc : Option ℚ) (olc : Bool)
    (hr : 1 ≤ r) :
    (buildPairRecord key value page_number "pdf_table" backend r table_id ""
      "" none oc olc).surface = "pdf_table" ∧
    (buildPairRecord key value page_number "pdf_table" backend r table_id ""
      "" none oc olc).row_id = rowIdFor "pdf_table"
        ((max 1 (if page_number = 0 then 1 else page_number)).toNat) r.toNat ∧
    rowCounterOf (buildPairRecord key value page_number "pdf_table" backend r
      table_id "" "" none oc olc) = r.toNat ∧
    1 ≤ r.toNat ∧ (r.toNat : Int) = r := by
  have hst : surfaceTokenOf "pdf_table" = "pdf_table" := by decide
  have hrow : max 1 (if r = 0 then 1 else r) = r := by
    rw [if_neg (by omega)]
    omega
  refine ⟨?_, ?_, ?_, by omega, by omega⟩
  · simp [buildPairRecord, hst]
  · simp [buildPairRecord, hst, hrow]
  · show rowCounterOfStr (buildPairRecord key value page_number "pdf_table"
      backend r table_id "" "" none oc olc).row_id = r.toNat
    have h2 : (buildPairRecord key value page_number "pdf_table" backend r
        table_id "" "" none oc olc).row_id = rowIdFor "pdf_table"
        ((max 1 (if page_number = 0 then 1 else page_number)).toNat) r.toNat := by
      simp [buildPairRecord, hst, hrow]
    rw [h2]
    exact rowCounter_rowIdFor_tr _ _

theorem goOutSpec_nil (s : String) (pn ri : Int) :
    GoOutSpec s pn ri ([], ri) := by
  refine ⟨le_refl _, ?_, List.Pairwise.nil⟩
  intro r hr
  simp at hr

theorem goOutSpec_cons (s : String) (pn ri : Int) (hri : 0 ≤ ri)
    (rec0 : PairRecord) (hs : rec0.surface = s)
    (hid : rec0.row_id = rowIdFor s
      ((max 1 (if pn = 0 then 1 else pn)).toNat) (ri + 1).toNat)
    (hc : rowCounterOf rec0 = (ri + 1).toNat)
    (out : List PairRecord × Int) (hout : GoOutSpec s pn (ri + 1) out) :
    GoOutSpec s pn ri (rec0 :: out.1, out.2) := by
  obtain ⟨h1, h2, h3⟩ := hout
  refine ⟨by omega, ?_, ?_⟩
  · intro r hr
    rcases List.mem_cons.mp hr with h | h
    · subst h
      exact ⟨hs, (ri + 1).toNat, by omega, by omega, hid, hc⟩
    · obtain ⟨hsr, i, hlt, hle, hidr, hcr⟩ := h2 r h
      exact ⟨hsr, i, by omega, hle, hidr, hcr⟩
  · refine List.pairwise_cons.mpr ⟨?_, h3⟩
    intro b hb
    obtain ⟨_, i, hlt, _, _, hcb⟩ := h2 b hb
    rw [hc, hcb]
    omega

theorem extractTextGo_spec (limit page_number : Int) :
    ∀ (lines : List String) (ri : Int) (count : Nat), 0 ≤ ri →
      GoOutSpec "pdf_kv" page_number ri
        (extractTextGo limit page_number "pdf_kv" "pdfplumber" none false
          lines ri count) := by
  intro lines
  induction lines with
  | nil => intro ri count hri; exact goOutSpec_nil _ _ _
  | cons line rest ih =>
    intro ri count hri
    rw [extractTextGo]
    by_cases hv : pairIsValid (parseLinePair line).1 (parseLinePair line).2 = true
    · rw [if_pos hv]
      obtain ⟨hs, hid, hc, _, _⟩ := buildPairRecord_kv_shape
        (parseLinePair line).1 (parseLinePair line).2 page_number
        "pdfplumber" (ri + 1) none false (by omega)
      by_cases hl : limit ≤ ((count + 1 : Nat) : Int)
      · rw [if_pos hl]
        exact goOutSpec_cons _ _ _ hri _ hs hid hc ([], ri + 1)
          (goOutSpec_nil _ _ _)
      · rw [if_neg hl]
        exact goOutSpec_cons _ _ _ hri _ hs hid hc _
          (ih (ri + 1) (count + 1) (by omega))
    · rw [if_neg hv]
      exact ih ri count hri

theorem extractTableGo_spec (limit page_number : Int) (table_id : String) :
    ∀ (rows : TableGrid) (ri : Int) (count : Nat), 0 ≤ ri →
      GoOutSpec "pdf_table" page_number ri
        (extractTableGo limit page_number "pdf_table" "pdfplumber" table_id
          none false rows ri count) := by
  intro rows
  induction rows with
  | nil => intro ri count hri; exact goOutSpec_nil _ _ _
  | cons row rest ih =>
    intro ri count hri
    rw [extractTableGo]
    split
    · rename_i c0 c1 crest heq
      by_cases hv : pairIsValid c0 (joinSep " | " (c1 :: crest)) = true
      · rw [if_pos hv]
        obtain ⟨hs, hid, hc, _, _⟩ := buildPairRecord_tr_shape
          c0 (joinSep " | " (c1 :: crest)) page_number "pdfplumber"
          table_id (ri + 1) none false (by omega)
        by_cases hl : limit ≤ ((count + 1 : Nat) : Int)
        · rw [if_pos hl]
          exact goOutSpec_cons _ _ _ hri _ hs hid hc ([], ri + 1)
            (goOutSpec_nil _ _ _)
        · rw [if_neg hl]
          exact goOutSpec_cons _ _ _ hri _ hs hid hc _
            (ih (ri + 1) (count + 1) (by omega))
      · rw [if_neg hv]
        exact ih ri count hri
    · exact ih ri count hri

theorem RecShape_mono (r : PairRecord) (k k' t t' : Int) (hk : k ≤ k')
    (ht : t ≤ t') (h : RecShape r k t) : RecShape r k' t' := by
  rcases h with ⟨hs, p, i, h1, h2, h3, h4⟩ | ⟨hs, p, i, h1, h2, h3, h4⟩
  · exact Or.inl ⟨hs, p, i, h1, by omega, h3, h4⟩
  · exact Or.inr ⟨hs, p, i, h1, by omega, h3, h4⟩

theorem StInv_of_fields (st st' : PState) (hk : st'.kvCursor = st.kvCursor)
    (ht : st'.tableCursor = st.tableCursor) (ha : st'.allPairs = st.allPairs)
    (h : StInv st) : StInv st' := by
  unfold StInv
  rw [hk, ht, ha]
  exact h

theorem tableStep_inv (max_pairs page_number : Int) (table_index : Nat)
    (table : TableGrid) (st : PState) (h : StInv st) :
    StInv (tableStep max_pairs page_number table_index table st) := by
  obtain ⟨hk, ht, hall, hpw⟩ := h
  simp only [tableStep, extractPairsFromTable]
  rw [max_eq_right ht]
  have hspec := extractTableGo_spec max_pairs page_number
    (tableIdFor page_number table_index) table st.tableCursor 0 ht
  obtain ⟨hc2, hmem, hpw2⟩ := hspec
  refine ⟨hk, le_trans ht hc2, ?_, ?_⟩
  · intro r hr
    rcases List.mem_append.mp hr with hr | hr
    · exact RecShape_mono r _ _ _ _ (le_refl _) hc2 (hall r hr)
    · obtain ⟨hsr, i, hlt, hle, hid, hcr⟩ := hmem r hr
      exact Or.inr ⟨hsr, _, i, by omega, hle, hid, hcr⟩
  · refine List.pairwise_append.mpr ⟨hpw, ?_, ?_⟩
    · exact hpw2.imp (fun {a b} hab => show SurfOrd a b from fun hs => hab)
    · intro a ha b hb hs
      obtain ⟨hsb, ib, hltb, _, _, hcb⟩ := hmem b hb
      rcases hall a ha with ⟨hsa, p, ia, h1, h2, h3, h4⟩ | ⟨hsa, p, ia, h1, h2, h3, h4⟩
      · rw [hsa, hsb] at hs
        simp at hs
      · rw [h4, hcb]
        omega

theorem tablesLoop_inv (max_pairs page_number : Int) :
    ∀ (ts : List TableGrid) (ti : Nat) (st : PState), StInv st →
      StInv (tablesLoop max_pairs page_number ts ti st)
  | [], _, _, h => h
  | t :: rest, ti, st, h => by
    rw [tablesLoop]
    split
    · exact tableStep_inv max_pairs page_number ti t st h
    · exact tablesLoop_inv max_pairs page_number rest (ti + 1) _
        (tableStep_inv max_pairs page_number ti t st h)

theorem kvStep_inv (max_pairs pn : Int) (text : String) (st1 : PState)
    (h : StInv st1) :
    StInv { st1 with
      kvPairs := st1.kvPairs ++ (extractPairsFromText text max_pairs pn
        "pdfplumber" st1.kvCursor "pdf_kv" none false).1
      allPairs := st1.allPairs ++ (extractPairsFromText text max_pairs pn
        "pdfplumber" st1.kvCursor "pdf_kv" none false).1
      previewChunks := st1.previewChunks ++ [text]
      kvCursor := (extractPairsFromText text max_pairs pn
        "pdfplumber" st1.kvCursor "pdf_kv" none false).2 } := by
  obtain ⟨hk, ht, hall, hpw⟩ := h
  simp only [extractPairsFromText]
  rw [max_eq_right hk]
  have hspec := extractTextGo_spec max_pairs pn (splitlinesStr text)
    st1.kvCursor 0 hk
  obtain ⟨hc2, hmem, hpw2⟩ := hspec
  refine ⟨le_trans hk hc2, ht, ?_, ?_⟩
  · intro r hr
    rcases List.mem_append.mp hr with hr | hr
    · exact RecShape_mono r _ _ _ _ hc2 (le_refl _) (hall r hr)
    · obtain ⟨hsr, i, hlt, hle, hid, hcr⟩ := hmem r hr
      exact Or.inl ⟨hsr, _, i, by omega, hle, hid, hcr⟩
  · refine List.pairwise_append.mpr ⟨hpw, ?_, ?_⟩
    · exact hpw2.imp (fun {a b} hab => show SurfOrd a b from fun hs => hab)
    · intro a ha b hb hs
      obtain ⟨hsb, ib, hltb, _, _, hcb⟩ := hmem b hb
      rcases hall a ha with ⟨hsa, p, ia, h1, h2, h3, h4⟩ | ⟨hsa, p, ia, h1, h2, h3, h4⟩
      · rw [h4, hcb]
        omega
      · rw [hsa, hsb] at hs
        simp at hs

theorem processPage_inv (max_pairs : Int) (p : Page) (st : PState)
    (h : StInv st) : StInv (processPage max_pairs p st) := by
  simp only [processPage]
  apply tablesLoop_inv
  apply StInv_of_fields _ _ rfl rfl rfl
  split
  · exact kvStep_inv max_pairs _ _ _ (StInv_of_fields st _ rfl rfl rfl h)
  · exact StInv_of_fields st _ rfl rfl rfl h

theorem pagesLoop_inv (max_pairs : Int) :
    ∀ (ps : List Page) (st : PState), StInv st →
      StInv (pagesLoop max_pairs ps st)
  | [], _, h => h
  | p :: rest, st, h => by
    rw [pagesLoop]
    split
    · exact processPage_inv max_pairs p st h
    · exact pagesLoop_inv max_pairs rest _ (processPage_inv max_pairs p st h)

/-- C3: every record emitted by the pdfplumber pass has a `row_id` that
is the composite `rowIdFor surface page counter` of its surface prefix,
a zero-padded page number and a positive row counter; the counters
strictly increase along records of the same surface (the counter is
scoped per surface, not per page — it runs on across pages); and the
`row_id`s are pairwise distinct across the whole run's output. -/
theorem c3_row_id_spec (pdfPages : List Page)
    (max_pages max_pairs max_text_preview_chars : Int) :
    (∀ r ∈ (extractWithPdfplumber pdfPages max_pages max_pairs
        max_text_preview_chars).pairs,
      (r.surface = "pdf_kv" ∨ r.surface = "pdf_table") ∧
      ∃ (p i : Nat), 1 ≤ i ∧ r.row_id = rowIdFor r.surface p i ∧
        rowCounterOf r = i) ∧
    (extractWithPdfplumber pdfPages max_pages max_pairs
        max_text_preview_chars).pairs.Pairwise SurfOrd ∧
    ((extractWithPdfplumber pdfPages max_pages max_pairs
        max_text_preview_chars).pairs.map PairRecord.row_id).Nodup := by
  have h0 : StInv initPState := by
    refine ⟨le_refl _, le_refl _, ?_, ?_⟩
    · intro r hr
      simp [initPState] at hr
    · exact List.Pairwise.nil
  have hinv := pagesLoop_inv max_pairs (pdfPages.take max_pages.toNat)
    initPState h0
  obtain ⟨hk, ht, hall, hpw⟩ := hinv
  have hpairs : (extractWithPdfplumber pdfPages max_pages max_pairs
      max_text_preview_chars).pairs =
      (pagesLoop max_pairs (pdfPages.take max_pages.toNat) initPState).allPairs :=
    rfl
  refine ⟨?_, ?_, ?_⟩
  · intro r hr
    rw [hpairs] at hr
    rcases hall r hr with ⟨hs, p, i, h1, _, h3, h4⟩ | ⟨hs, p, i, h1, _, h3, h4⟩
    · refine ⟨Or.inl hs, p, i, h1, ?_, h4⟩
      rw [hs]
      exact h3
    · refine ⟨Or.inr hs, p, i, h1, ?_, h4⟩
      rw [hs]
      exact h3
  · rw [hpairs]
    exact hpw
  · have hne : (pagesLoop max_pairs (pdfPages.take max_pages.toNat)
        initPState).allPairs.Pairwise (fun a b => a.row_id ≠ b.row_id) := by
      refine hpw.imp_of_mem ?_
      intro a b ha hb hab heq
      rcases hall a ha with ⟨hsa, pa, ia, ha1, ha2, ha3, ha4⟩ |
        ⟨hsa, pa, ia, ha1, ha2, ha3, ha4⟩ <;>
        rcases hall b hb with ⟨hsb, pb, ib, hb1, hb2, hb3, hb4⟩ |
          ⟨hsb, pb, ib, hb1, hb2, hb3, hb4⟩
      · rw [ha3, hb3] at heq
        obtain ⟨hss, hpp, hii⟩ := rowIdFor_primary_inj _ _ _ _ _ _
          (Or.inl rfl) (Or.inl rfl) heq
        have hlt := hab (hsa.trans hsb.symm)
        rw [ha4, hb4] at hlt
        omega
      · rw [ha3, hb3] at heq
        obtain ⟨hss, hpp, hii⟩ := rowIdFor_primary_inj _ _ _ _ _ _
          (Or.inl rfl) (Or.inr rfl) heq
        simp at hss
      · rw [ha3, hb3] at heq
        obtain ⟨hss, hpp, hii⟩ := rowIdFor_primary_inj _ _ _ _ _ _
          (Or.inr rfl) (Or.inl rfl) heq
        simp at hss
      · rw [ha3, hb3] at heq
        obtain ⟨hss, hpp, hii⟩ := rowIdFor_primary_inj _ _ _ _ _ _
          (Or.inr rfl) (Or.inr rfl) heq
        have hlt := hab (hsa.trans hsb.symm)
        rw [ha4, hb4] at hlt
        omega
    rw [hpairs]
    exact List.pairwise_map.mpr hne

/-- C3 counterexample: on two one-pair pages the code's row counter is
scoped per surface only and runs on across pages — the second page's
record is `pdf_02.kv_0002` — whereas a counter scoped per page and per
surface, as the claim states, would restart at each page and yield
`pdf_02.kv_0001`. -/
theorem c3_counterexample :
    ((extractWithPdfplumber [pageKv1, pageKv2] 60 5000 20000).pairs.map
      PairRecord.row_id) = ["pdf_01.kv_0001", "pdf_02.kv_0002"] ∧
    claimedPerPageRowIds
      (extractWithPdfplumber [pageKv1, pageKv2] 60 5000 20000).pairs =
      ["pdf_01.kv_0001", "pdf_02.kv_0001"] ∧
    ((extractWithPdfplumber [pageKv1, pageKv2] 60 5000 20000).pairs.map
      PairRecord.row_id) ≠ claimedPerPageRowIds
      (extractWithPdfplumber [pageKv1, pageKv2] 60 5000 20000).pairs := by
  have hp21 : padDigits 2 1 = ['0', '1'] := by
    rw [padDigits, natDigits]
    decide
  have hp22 : padDigits 2 2 = ['0', '2'] := by
    rw [padDigits, natDigits]
    decide
  have hp41 : padDigits 4 1 = ['0', '0', '0', '1'] := by
    rw [padDigits, natDigits]
    decide
  have hp42 : padDigits 4 2 = ['0', '0', '0', '2'] := by
    rw [padDigits, natDigits]
    decide
  have h11 : rowIdFor "pdf_kv" 1 1 = "pdf_01.kv_0001" := by
    rw [rowIdFor_kv_eq, hp21, hp41]
    decide
  have h22 : rowIdFor "pdf_kv" 2 2 = "pdf_02.kv_0002" := by
    rw [rowIdFor_kv_eq, hp22, hp42]
    decide
  have h21 : rowIdFor "pdf_kv" 2 1 = "pdf_02.kv_0001" := by
    rw [rowIdFor_kv_eq, hp22, hp41]
    decide
  have hmap : ((extractWithPdfplumber [pageKv1, pageKv2] 60 5000 20000).pairs.map
      PairRecord.row_id) = [rowIdFor "pdf_kv" 1 1, rowIdFor "pdf_kv" 2 2] := rfl
  have hclaimed : claimedPerPageRowIds
      (extractWithPdfplumber [pageKv1, pageKv2] 60 5000 20000).pairs =
      [rowIdFor "pdf_kv" 1 1, rowIdFor "pdf_kv" 2 1] := rfl
  rw [hmap, hclaimed, h11, h22, h21]
  refine ⟨rfl, rfl, ?_⟩
  decide

/-- Concrete instance of the per-surface row-id specification: the
two-page fixture's row ids are pairwise distinct. -/
theorem c3_row_id_spec_witness :
    ((extractWithPdfplumber [pageKv1, pageKv2] 60 5000 20000).pairs.map
      PairRecord.row_id).Nodup :=
  (c3_row_id_spec [pageKv1, pageKv2] 60 5000 20000).2.2
